import Mathlib

/-!
Verification development for the database bootstrap script
`init_versioning_db.py` of the `users_local_setup` repository.

The script issues a fixed sequence of SQL statements against PostgreSQL:
drop all known tables with cascade, recreate every table, index, view and
trigger in a fixed order, then seed a default tenant and three plans.

The development has two layers:

* a row-level model of the individual tables whose constraints the spec
  talks about (`requirements`, `testcases`, `tenants`, `users`,
  `tcm_credentials`, `sections`, `testcase_section_map`,
  `tcm_testcase_mappings`), with insert/delete operations that enforce
  exactly the constraints declared in the corresponding `CREATE TABLE`
  and `CREATE UNIQUE INDEX` statements, plus the row-level delete trigger
  `cascade_delete_section_links_for_tcm`;

* a DDL-level model of the whole build: a database state (tables with
  their column lists and key constraints, indexes, triggers, views,
  functions, extensions, and the rows of each table), a statement type
  covering every statement the script issues, a small-step interpreter
  `applyStmt` and a sequential runner mirroring `execute_sql`'s fail-fast
  behaviour, and the full statement list `buildStmts` in the exact order
  `initialize_database` issues it.

Nullable columns are `Option`-typed; `NOT NULL` columns use the bare
type.  UUID and TEXT columns are `String`, INTEGER columns are `Int`,
SERIAL keys are `Nat`.  Timestamp columns carry no design content for the
verified properties and are modelled as optional abstract instants
(`Option Nat`); column defaults that the inserts leave to the database
(`CURRENT_TIMESTAMP`, `gen_random_uuid()`) are kept symbolic, i.e. a row
stores only the values the statement supplies.  Each object kind
(table / index / view / trigger / function) is checked for name clashes
within its own kind.
-/

namespace InitVersioningDb

/-! ## Row-level model: requirements and testcases -/

/-- One row of the `requirements` table.  Columns as in
`create_requirements_table`; `NOT NULL` columns are bare, nullable ones
are `Option`.  `requirement_detail` is the `JSON NOT NULL` payload,
kept as its textual form. -/
structure RequirementRow where
  requirement_id : String
  row_id : Nat
  tenant_id : String
  label_id : Nat
  title : String
  version : Int
  raw_text : Option String
  requirement_detail : String
  testcase_generation_status : Option String
  created_at : Option Nat
  updated_at : Option Nat
  meta_info : Option String
  deriving DecidableEq, Repr

/-- Allowed values of the `testcase_generation_status` check constraint. -/
def reqStatusValues : List String :=
  ["NOT_STARTED", "IN_PROGRESS", "COMPLETED", "FAILED", "SYNCHED"]

/-- Check constraints of a `requirements` row (the status enumeration;
a NULL status passes the SQL check). -/
def requirementChecksOk (r : RequirementRow) : Bool :=
  match r.testcase_generation_status with
  | none => true
  | some s => reqStatusValues.contains s

/-- Insert into `requirements`, enforcing the declared constraints:
primary key `row_id`, `UNIQUE(requirement_id, version)`, the foreign
keys to `tenants(tenant_id)` and `requirement_labels(label_id)` (the
parent key sets are passed in), and the status check.  Returns `none`
when any constraint fails. -/
def insertRequirementRow (tenantIds : List String) (labelIds : List Nat)
    (tbl : List RequirementRow) (r : RequirementRow) :
    Option (List RequirementRow) :=
  if tbl.any (fun x => x.row_id == r.row_id) then none
  else if tbl.any (fun x => x.requirement_id == r.requirement_id && x.version == r.version) then none
  else if !(tenantIds.contains r.tenant_id) then none
  else if !(labelIds.contains r.label_id) then none
  else if !(requirementChecksOk r) then none
  else some (tbl ++ [r])

/-- One row of the `testcases` table, as in `create_testcases_table`. -/
structure TestcaseRow where
  testcase_id : String
  row_id : Nat
  requirement_id : String
  title : String
  steps : String
  expected_result : String
  status : String
  sync_status : Option String
  version : Int
  priority : Option String
  derived_from_row_id : Option Nat
  created_at : Option Nat
  updated_at : Option Nat
  meta_info : Option String
  deriving DecidableEq, Repr

/-- Allowed values of the `sync_status` check constraint. -/
def syncStatusValues : List String := ["NEW", "UPDATED", "SYNCHED"]

/-- Check constraints of a `testcases` row. -/
def testcaseChecksOk (r : TestcaseRow) : Bool :=
  match r.sync_status with
  | none => true
  | some s => syncStatusValues.contains s

/-- Insert into `testcases`: primary key `row_id`,
`UNIQUE(testcase_id, version)`, the self-referencing foreign key
`derived_from_row_id REFERENCES testcases(row_id)` (checked against the
table including the new row, as the database does after the insert),
and the `sync_status` check. -/
def insertTestcaseRow (tbl : List TestcaseRow) (r : TestcaseRow) :
    Option (List TestcaseRow) :=
  if tbl.any (fun x => x.row_id == r.row_id) then none
  else if tbl.any (fun x => x.testcase_id == r.testcase_id && x.version == r.version) then none
  else if !(testcaseChecksOk r) then none
  else if !(match r.derived_from_row_id with
            | none => true
            | some d => (tbl ++ [r]).any (fun x => x.row_id == d)) then none
  else some (tbl ++ [r])

/-- The `(requirement_id, version)` pairs of a `requirements` table are
pairwise distinct: any two rows agreeing on the pair are the same row. -/
def ReqPairUnique (tbl : List RequirementRow) : Prop :=
  List.Pairwise
    (fun a b => ¬(a.requirement_id = b.requirement_id ∧ a.version = b.version)) tbl

/-- The `(testcase_id, version)` pairs of a `testcases` table are
pairwise distinct. -/
def TcPairUnique (tbl : List TestcaseRow) : Prop :=
  List.Pairwise
    (fun a b => ¬(a.testcase_id = b.testcase_id ∧ a.version = b.version)) tbl

instance (tbl : List RequirementRow) : Decidable (ReqPairUnique tbl) := by
  unfold ReqPairUnique
  exact inferInstance

instance (tbl : List TestcaseRow) : Decidable (TcPairUnique tbl) := by
  unfold TcPairUnique
  exact inferInstance

/-! ## Row-level model: tenants and users with their unique indexes -/

/-- One row of the `tenants` table (`create_tenants_table`). -/
structure TenantRow where
  tenant_id : String
  tenant_name : String
  tenant_type : String
  tenant_state : String
  primary_domain : Option String
  created_at : Option Nat
  updated_at : Option Nat
  deriving DecidableEq, Repr

/-- Check constraints of a `tenants` row (type and state enumerations). -/
def tenantChecksOk (r : TenantRow) : Bool :=
  ["PERSONAL", "ORGANIZATION"].contains r.tenant_type &&
  ["ACTIVE", "PENDING"].contains r.tenant_state

/-- Insert into `tenants`, enforcing the primary key, the check
constraints, and the build's unique index
`ux_tenants_primary_domain ON tenants(primary_domain)
WHERE primary_domain IS NOT NULL`: a new row with a non-null
`primary_domain` is rejected whenever any existing row carries the same
non-null domain, regardless of `tenant_id`. -/
def insertTenantRow (tbl : List TenantRow) (r : TenantRow) :
    Option (List TenantRow) :=
  if tbl.any (fun x => x.tenant_id == r.tenant_id) then none
  else if !(tenantChecksOk r) then none
  else if (match r.primary_domain with
           | none => false
           | some d => tbl.any (fun x => x.primary_domain == some d)) then none
  else some (tbl ++ [r])

/-- Insert into a hypothetical `tenants` table carrying instead the
index the spec describes, a partial unique index on the pair
`(tenant_id, primary_domain)` restricted to rows with a non-null
domain.  Modelled from the spec: `unique (tenant, primary_domain) only
when the domain is non-null`; this index does not exist in the source
and is defined only to be compared with `insertTenantRow`. -/
def specClaimedTenantInsert (tbl : List TenantRow) (r : TenantRow) :
    Option (List TenantRow) :=
  if tbl.any (fun x => x.tenant_id == r.tenant_id) then none
  else if !(tenantChecksOk r) then none
  else if (match r.primary_domain with
           | none => false
           | some d => tbl.any (fun x =>
               x.tenant_id == r.tenant_id && x.primary_domain == some d)) then none
  else some (tbl ++ [r])

/-- One row of the `users` table (`create_users_table`). -/
structure UserRow where
  user_id : String
  tenant_id : String
  email : String
  name : Option String
  auth_provider : String
  external_subject : Option String
  state : String
  created_at : Option Nat
  updated_at : Option Nat
  deriving DecidableEq, Repr

/-- Allowed values of the `auth_provider` check constraint. -/
def authProviderValues : List String :=
  ["GOOGLE", "LINKEDIN", "LDAP", "SAML", "LOCAL", "EMBEDDED"]

/-- Check constraints of a `users` row. -/
def userChecksOk (r : UserRow) : Bool :=
  authProviderValues.contains r.auth_provider &&
  ["ACTIVE", "PENDING"].contains r.state

/-- Insert into `users`, enforcing the primary key, `email` uniqueness,
the check constraints, the foreign key to `tenants`, and the build's
partial unique index `ux_users_provider_subject ON
users(auth_provider, external_subject) WHERE external_subject IS NOT
NULL`. -/
def insertUserRow (tenantIds : List String) (tbl : List UserRow)
    (r : UserRow) : Option (List UserRow) :=
  if tbl.any (fun x => x.user_id == r.user_id) then none
  else if tbl.any (fun x => x.email == r.email) then none
  else if !(userChecksOk r) then none
  else if !(tenantIds.contains r.tenant_id) then none
  else if (match r.external_subject with
           | none => false
           | some s => tbl.any (fun x =>
               x.auth_provider == r.auth_provider &&
               x.external_subject == some s)) then none
  else some (tbl ++ [r])

/-! ## Row-level model: TCM integrations and credentials -/

/-- One row of the `tcm_credentials` table
(`create_tcm_credentials_table`).  `base_url` is `NOT NULL`; the three
secret columns are nullable. -/
structure TcmCredentialRow where
  credential_id : String
  integration_id : String
  base_url : String
  api_key : Option String
  username : Option String
  password : Option String
  created_at : Option Nat
  updated_at : Option Nat
  deriving DecidableEq, Repr

/-- A nullable text value is populated when it is non-null and not the
empty string (`col IS NOT NULL AND col != ''`). -/
def populated : Option String → Bool
  | none => false
  | some s => !(s == "")

/-- The `check_auth_method` constraint of `tcm_credentials`: either a
populated `api_key`, or a populated `username` together with a
populated `password`. -/
def check_auth_method (r : TcmCredentialRow) : Bool :=
  populated r.api_key || (populated r.username && populated r.password)

/-- Insert into `tcm_credentials`, enforcing every constraint the
`CREATE TABLE` declares: the primary key `credential_id`, the foreign
key to `tcm_integrations(integration_id)` (parent keys passed in), and
`check_auth_method`.  The table declares no uniqueness on
`integration_id`. -/
def insertTcmCredentialRow (integrationIds : List String)
    (tbl : List TcmCredentialRow) (r : TcmCredentialRow) :
    Option (List TcmCredentialRow) :=
  if tbl.any (fun x => x.credential_id == r.credential_id) then none
  else if !(integrationIds.contains r.integration_id) then none
  else if !(check_auth_method r) then none
  else some (tbl ++ [r])

/-! ## Row-level model: sections, section links and TCM mappings -/

/-- One row of the `sections` table (`create_sections_table`). -/
structure SectionRow where
  section_id : String
  tenant_id : String
  section_name : String
  source : Option String
  external_section_id : Option String
  external_suite_id : Option String
  description : Option String
  created_at : Option Nat
  deriving DecidableEq, Repr

/-- One row of the `testcase_section_map` table
(`create_testcase_section_map_table`). -/
structure TsmRow where
  map_id : Nat
  testcase_id : String
  section_id : String
  linked_at_version : Int
  created_at : Option Nat
  deriving DecidableEq, Repr

/-- One row of the `tcm_testcase_mappings` table
(`create_tcm_testcase_mappings_table`). -/
structure TcmMappingRow where
  mapping_id : Nat
  testcase_id : String
  tcm_tool : String
  external_testcase_id : String
  sync_direction : Option String
  last_synced_at : Option Nat
  deriving DecidableEq, Repr

/-- Insert into `testcase_section_map`, enforcing the primary key,
the declared table constraint `UNIQUE(testcase_id, section_id,
linked_at_version)`, the unique index `ux_tsm_testcase_section ON
testcase_section_map(testcase_id, section_id)` created by
`create_indexes`, the foreign key to `sections(section_id)`, and the
composite foreign key `(testcase_id, linked_at_version)` into
`testcases(testcase_id, version)` (the parent pairs are passed in). -/
def insertTsmRow (sectionIds : List String) (testcaseVersions : List (String × Int))
    (tbl : List TsmRow) (r : TsmRow) : Option (List TsmRow) :=
  if tbl.any (fun x => x.map_id == r.map_id) then none
  else if tbl.any (fun x => x.testcase_id == r.testcase_id &&
      x.section_id == r.section_id && x.linked_at_version == r.linked_at_version) then none
  else if tbl.any (fun x => x.testcase_id == r.testcase_id &&
      x.section_id == r.section_id) then none
  else if !(sectionIds.contains r.section_id) then none
  else if !(testcaseVersions.contains (r.testcase_id, r.linked_at_version)) then none
  else some (tbl ++ [r])

/-- A `testcase_section_map` table satisfies the declared table
constraint when no two distinct rows agree on all of
`(testcase_id, section_id, linked_at_version)`. -/
def TsmTripleUnique (tbl : List TsmRow) : Prop :=
  List.Pairwise (fun a b => ¬(a.testcase_id = b.testcase_id ∧
    a.section_id = b.section_id ∧ a.linked_at_version = b.linked_at_version)) tbl

/-- A `testcase_section_map` table satisfies the unique index
`ux_tsm_testcase_section` when no two distinct rows agree on
`(testcase_id, section_id)`. -/
def TsmPairUnique (tbl : List TsmRow) : Prop :=
  List.Pairwise (fun a b => ¬(a.testcase_id = b.testcase_id ∧
    a.section_id = b.section_id)) tbl

instance (tbl : List TsmRow) : Decidable (TsmTripleUnique tbl) := by
  unfold TsmTripleUnique
  exact inferInstance

instance (tbl : List TsmRow) : Decidable (TsmPairUnique tbl) := by
  unfold TsmPairUnique
  exact inferInstance

/-- The part of the database state the cascade-cleanup trigger touches:
the mapping table the delete acts on, the sections table it consults,
and the link table it cleans. -/
structure TriggerDb where
  sections : List SectionRow
  tcm_testcase_mappings : List TcmMappingRow
  testcase_section_map : List TsmRow
  deriving DecidableEq, Repr

/-- The body of `cascade_delete_section_links_for_tcm`: after a
`tcm_testcase_mappings` row `old` is deleted, delete from
`testcase_section_map` every row `m` for which some section `s`
satisfies `m.section_id = s.section_id`, `m.testcase_id =
old.testcase_id` and `s.source = old.tcm_tool`. -/
def cascade_delete_section_links_for_tcm (old : TcmMappingRow)
    (db : TriggerDb) : TriggerDb :=
  { db with testcase_section_map := db.testcase_section_map.filter (fun m =>
      !(db.sections.any (fun s => s.section_id == m.section_id &&
        m.testcase_id == old.testcase_id && s.source == some old.tcm_tool))) }

/-- Delete the `tcm_testcase_mappings` row with the given primary key
and fire the `AFTER DELETE FOR EACH ROW` trigger
`trg_cascade_tcm_mapping_delete` for it.  When no row matches, nothing
happens. -/
def deleteTcmMapping (db : TriggerDb) (mid : Nat) : TriggerDb :=
  match db.tcm_testcase_mappings.find? (fun x => x.mapping_id == mid) with
  | none => db
  | some old =>
      cascade_delete_section_links_for_tcm old
        { db with tcm_testcase_mappings :=
            db.tcm_testcase_mappings.filter (fun x => !(x.mapping_id == mid)) }

/-! ## DDL-level model: values, schema objects, database state -/

/-- A value supplied explicitly by one of the script's `INSERT`
statements (texts and booleans are the only kinds that occur);
columns the insert leaves to their defaults stay absent from the row. -/
inductive Val where
  | vs (s : String)
  | vb (b : Bool)
  deriving DecidableEq, Repr

/-- A stored row: the explicitly supplied (column, value) pairs. -/
abbrev Row := List (String × Val)

/-- A foreign key declared by a `CREATE TABLE` statement. -/
structure FKeyDef where
  cols : List String
  refTable : String
  refCols : List String
  deriving DecidableEq, Repr

/-- The schema-level content of one `CREATE TABLE` statement: the table
name, its column names in declaration order, the primary key, the
declared `UNIQUE` constraints and the foreign keys. -/
structure TableDefS where
  name : String
  cols : List String
  pk : List String
  uniques : List (List String)
  fks : List FKeyDef
  deriving DecidableEq, Repr

/-- One `CREATE [UNIQUE] INDEX` statement: name, target table, column
list, uniqueness, and the optional partial-index restriction
`WHERE col IS NOT NULL` (the only `WHERE` form the script uses). -/
structure IndexDefS where
  name : String
  table : String
  cols : List String
  unique : Bool
  whereNotNullCol : Option String
  deriving DecidableEq, Repr

/-- One `CREATE TRIGGER` statement: name, target table, firing clause
and the invoked function. -/
structure TriggerDefS where
  name : String
  table : String
  firing : String
  fn : String
  deriving DecidableEq, Repr

/-- One `CREATE OR REPLACE VIEW` statement: the view name and the
tables its body reads (which determine when `DROP TABLE ... CASCADE`
drops the view). -/
structure ViewDefS where
  name : String
  refTables : List String
  deriving DecidableEq, Repr

/-- The whole database state: installed extensions, tables (definition
plus stored rows), indexes, views, triggers, and the names of the
installed procedural functions. -/
structure DBState where
  extensions : List String
  tables : List (TableDefS × List Row)
  indexes : List IndexDefS
  views : List ViewDefS
  triggers : List TriggerDefS
  funcs : List String
  deriving DecidableEq, Repr

/-- A database with nothing in it. -/
def emptyDb : DBState := ⟨[], [], [], [], [], []⟩

/-- The statements `initialize_database` issues, one constructor per
SQL statement form used by the script. -/
inductive Stmt where
  | createExtensionIfNotExists (name : String)
  | dropTableIfExistsCascade (name : String)
  | createTable (t : TableDefS)
  | createIndexStmt (i : IndexDefS)
  | createOrReplaceFunction (name : String)
  | createTrigger (t : TriggerDefS)
  | dropTriggerIfExists (name : String) (table : String)
  | createOrReplaceView (v : ViewDefS)
  | insertOnConflictDoNothing (table : String) (conflictCols : List String) (rows : List Row)
  deriving DecidableEq, Repr

/-- Add a name to a list unless already present (`IF NOT EXISTS` /
`OR REPLACE` bookkeeping for extensions and functions). -/
def addName (n : String) (l : List String) : List String :=
  if l.contains n then l else l ++ [n]

/-- Value of a column in a stored row, when the row supplies one. -/
def getVal (row : Row) (c : String) : Option Val :=
  (row.find? (fun p => p.1 == c)).map (fun p => p.2)

/-- Two rows conflict on a conflict-target column list when they agree
on the value of every listed column. -/
def conflictsWith (ccols : List String) (ex r : Row) : Bool :=
  ccols.all (fun c => getVal ex c == getVal r c)

/-- `INSERT ... ON CONFLICT (ccols) DO NOTHING` over a list of value
rows: each row is appended unless a row already present (including
rows inserted earlier by the same statement) conflicts with it. -/
def insertRowsOnConflict (ccols : List String) (existing newRows : List Row) :
    List Row :=
  newRows.foldl (fun acc r =>
    if acc.any (fun ex => conflictsWith ccols ex r) then acc else acc ++ [r]) existing

/-- Whether a table of the given name exists. -/
def tableExists (db : DBState) (n : String) : Bool :=
  db.tables.any (fun e => e.1.name == n)

/-- Resolution of a foreign key at table-creation time: the referenced
table is the table being created (self-reference) or an existing one,
it has the referenced columns, and the referenced column list is its
primary key or one of its declared unique constraints. -/
def fkResolved (tbls : List (TableDefS × List Row)) (t : TableDefS)
    (f : FKeyDef) : Bool :=
  match (if f.refTable == t.name then some t
         else ((tbls.find? (fun e => e.1.name == f.refTable)).map (fun e => e.1))) with
  | none => false
  | some u => f.refCols.all (fun c => u.cols.contains c) &&
      (f.refCols == u.pk || u.uniques.contains f.refCols)

/-- Effect of `DROP TABLE IF EXISTS n CASCADE`: the table disappears
together with its indexes and triggers, views reading it, and foreign
keys of other tables that reference it.  Tolerates an absent table. -/
def dropTableAction (n : String) (db : DBState) : DBState :=
  { db with
    tables := (db.tables.filter (fun e => !(e.1.name == n))).map
      (fun e => ({ e.1 with fks := e.1.fks.filter (fun f => !(f.refTable == n)) }, e.2)),
    indexes := db.indexes.filter (fun i => !(i.table == n)),
    triggers := db.triggers.filter (fun t => !(t.table == n)),
    views := db.views.filter (fun v => !(v.refTables.contains n)) }

/-- One step of the interpreter: the effect of a single statement on
the database, or the error the database reports. -/
def applyStmt (s : Stmt) (db : DBState) : Except String DBState :=
  match s with
  | .createExtensionIfNotExists n =>
      .ok { db with extensions := addName n db.extensions }
  | .dropTableIfExistsCascade n => .ok (dropTableAction n db)
  | .createTable t =>
      if db.tables.any (fun e => e.1.name == t.name) then
        .error ("relation already exists: " ++ t.name)
      else if !(t.fks.all (fun f => fkResolved db.tables t f)) then
        .error ("no matching key for foreign key of: " ++ t.name)
      else .ok { db with tables := db.tables ++ [(t, [])] }
  | .createIndexStmt i =>
      if db.indexes.any (fun x => x.name == i.name) then
        .error ("index already exists: " ++ i.name)
      else if !(tableExists db i.table) then
        .error ("no such table: " ++ i.table)
      else .ok { db with indexes := db.indexes ++ [i] }
  | .createOrReplaceFunction n =>
      .ok { db with funcs := addName n db.funcs }
  | .createTrigger t =>
      if db.triggers.any (fun x => x.name == t.name && x.table == t.table) then
        .error ("trigger already exists: " ++ t.name)
      else if !(tableExists db t.table) then
        .error ("no such table: " ++ t.table)
      else .ok { db with triggers := db.triggers ++ [t] }
  | .dropTriggerIfExists n tbl =>
      if !(tableExists db tbl) then .error ("no such table: " ++ tbl)
      else
        .ok { db with
              triggers := db.triggers.filter (fun x => !(x.name == n && x.table == tbl)) }
  | .createOrReplaceView v =>
      if !(v.refTables.all (fun n => tableExists db n)) then
        .error ("view references a missing table: " ++ v.name)
      else
        .ok { db with
              views := db.views.filter (fun x => !(x.name == v.name)) ++ [v] }
  | .insertOnConflictDoNothing tbl ccols rows =>
      if !(tableExists db tbl) then .error ("no such table: " ++ tbl)
      else
        .ok { db with
              tables := db.tables.map (fun e =>
                if e.1.name == tbl then (e.1, insertRowsOnConflict ccols e.2 rows) else e) }

/-- Run a statement list in order, stopping at the first failure and
reporting the offending statement with the database's error text, as
`execute_sql` does (it logs the error and the statement, then
re-raises). -/
def runStmts : List Stmt → DBState → Except (Stmt × String) DBState
  | [], db => .ok db
  | s :: rest, db =>
      match applyStmt s db with
      | .ok db' => runStmts rest db'
      | .error m => .error (s, m)

/-- Like `runStmts` but also returns the statements actually executed
(attempted), in order. -/
def runStmtsTrace : List Stmt → DBState → List Stmt × Except (Stmt × String) DBState
  | [], db => ([], .ok db)
  | s :: rest, db =>
      match applyStmt s db with
      | .ok db' =>
          let r := runStmtsTrace rest db'
          (s :: r.1, r.2)
      | .error m => ([s], .error (s, m))

/-! ## The build sequence of `initialize_database` -/

/-- Teardown order of `drop_existing_tables`. -/
def dropList : List String :=
  ["usage", "subscriptions", "plans", "traceability_matrix",
   "tcm_testcase_mappings", "testcase_section_map", "sections",
   "xray_projects", "zephyr_projects", "testrail_suites",
   "testrail_projects", "tcm_credentials", "tcm_integrations",
   "requirement_testcase_map", "testcases", "requirements",
   "requirement_labels", "users", "tenants"]

/-- The tables the script knows about (the teardown list). -/
def knownTables : List String := dropList

/-- Schema of `tenants` (`create_tenants_table`). -/
def tenantsDef : TableDefS :=
  { name := "tenants",
    cols := ["tenant_id", "tenant_name", "tenant_type", "tenant_state",
             "primary_domain", "created_at", "updated_at"],
    pk := ["tenant_id"], uniques := [], fks := [] }

/-- Schema of `requirement_labels` (`create_requirement_labels_table`). -/
def requirementLabelsDef : TableDefS :=
  { name := "requirement_labels",
    cols := ["label_id", "tenant_id", "requirement_label", "created_at", "updated_at"],
    pk := ["label_id"],
    uniques := [["tenant_id", "requirement_label"]],
    fks := [⟨["tenant_id"], "tenants", ["tenant_id"]⟩] }

/-- Schema of `requirements` (`create_requirements_table`). -/
def requirementsDef : TableDefS :=
  { name := "requirements",
    cols := ["requirement_id", "row_id", "tenant_id", "label_id", "title",
             "version", "raw_text", "requirement_detail",
             "testcase_generation_status", "created_at", "updated_at", "meta_info"],
    pk := ["row_id"],
    uniques := [["requirement_id", "version"]],
    fks := [⟨["tenant_id"], "tenants", ["tenant_id"]⟩,
            ⟨["label_id"], "requirement_labels", ["label_id"]⟩] }

/-- Schema of `testcases` (`create_testcases_table`). -/
def testcasesDef : TableDefS :=
  { name := "testcases",
    cols := ["testcase_id", "row_id", "requirement_id", "title", "steps",
             "expected_result", "status", "sync_status", "version", "priority",
             "derived_from_row_id", "created_at", "updated_at", "meta_info"],
    pk := ["row_id"],
    uniques := [["testcase_id", "version"]],
    fks := [⟨["derived_from_row_id"], "testcases", ["row_id"]⟩] }

/-- Schema of `sections` (`create_sections_table`). -/
def sectionsDef : TableDefS :=
  { name := "sections",
    cols := ["section_id", "tenant_id", "section_name", "source",
             "external_section_id", "external_suite_id", "description", "created_at"],
    pk := ["section_id"],
    uniques := [["tenant_id", "section_name"]],
    fks := [⟨["tenant_id"], "tenants", ["tenant_id"]⟩] }

/-- Schema of `testcase_section_map`
(`create_testcase_section_map_table`). -/
def testcaseSectionMapDef : TableDefS :=
  { name := "testcase_section_map",
    cols := ["map_id", "testcase_id", "section_id", "linked_at_version", "created_at"],
    pk := ["map_id"],
    uniques := [["testcase_id", "section_id", "linked_at_version"]],
    fks := [⟨["section_id"], "sections", ["section_id"]⟩,
            ⟨["testcase_id", "linked_at_version"], "testcases", ["testcase_id", "version"]⟩] }

/-- Schema of `requirement_testcase_map` (`create_mapping_table`). -/
def requirementTestcaseMapDef : TableDefS :=
  { name := "requirement_testcase_map",
    cols := ["id", "requirement_id", "requirement_version", "testcase_id",
             "testcase_version", "linked_at_version", "created_at"],
    pk := ["id"],
    uniques := [["requirement_id", "requirement_version", "testcase_id", "testcase_version"]],
    fks := [⟨["requirement_id", "requirement_version"], "requirements",
             ["requirement_id", "version"]⟩,
            ⟨["testcase_id", "testcase_version"], "testcases",
             ["testcase_id", "version"]⟩] }

/-- Schema of `users` (`create_users_table`). -/
def usersDef : TableDefS :=
  { name := "users",
    cols := ["user_id", "tenant_id", "email", "name", "auth_provider",
             "external_subject", "state", "created_at", "updated_at"],
    pk := ["user_id"],
    uniques := [["email"]],
    fks := [⟨["tenant_id"], "tenants", ["tenant_id"]⟩] }

/-- Schema of `tcm_integrations` (`create_tcm_integrations_table`). -/
def tcmIntegrationsDef : TableDefS :=
  { name := "tcm_integrations",
    cols := ["integration_id", "tenant_id", "integrator_type", "name",
             "description", "is_active", "created_at", "updated_at"],
    pk := ["integration_id"], uniques := [],
    fks := [⟨["tenant_id"], "tenants", ["tenant_id"]⟩] }

/-- Schema of `tcm_credentials` (`create_tcm_credentials_table`). -/
def tcmCredentialsDef : TableDefS :=
  { name := "tcm_credentials",
    cols := ["credential_id", "integration_id", "base_url", "api_key",
             "username", "password", "created_at", "updated_at"],
    pk := ["credential_id"], uniques := [],
    fks := [⟨["integration_id"], "tcm_integrations", ["integration_id"]⟩] }

/-- Schema of `tcm_testcase_mappings`
(`create_tcm_testcase_mappings_table`). -/
def tcmTestcaseMappingsDef : TableDefS :=
  { name := "tcm_testcase_mappings",
    cols := ["mapping_id", "testcase_id", "tcm_tool", "external_testcase_id",
             "sync_direction", "last_synced_at"],
    pk := ["mapping_id"],
    uniques := [["testcase_id", "tcm_tool"]], fks := [] }

/-- Schema of `testrail_projects` (`create_testrail_projects_table`). -/
def testrailProjectsDef : TableDefS :=
  { name := "testrail_projects",
    cols := ["project_id", "integration_id", "external_project_id", "project_name",
             "project_description", "project_mode", "is_active", "created_at",
             "last_synced_at"],
    pk := ["project_id"], uniques := [],
    fks := [⟨["integration_id"], "tcm_integrations", ["integration_id"]⟩] }

/-- Schema of `testrail_suites` (`create_testrail_suites_table`). -/
def testrailSuitesDef : TableDefS :=
  { name := "testrail_suites",
    cols := ["suite_id", "project_id", "external_suite_id", "suite_name",
             "suite_description", "is_active", "created_at", "last_synced_at"],
    pk := ["suite_id"],
    uniques := [["project_id", "external_suite_id"]],
    fks := [⟨["project_id"], "testrail_projects", ["project_id"]⟩] }

/-- Schema of `zephyr_projects` (`create_zephyr_projects_table`). -/
def zephyrProjectsDef : TableDefS :=
  { name := "zephyr_projects",
    cols := ["project_id", "integration_id", "project_key", "project_name",
             "project_lead", "created_at", "last_synced_at"],
    pk := ["project_id"], uniques := [],
    fks := [⟨["integration_id"], "tcm_integrations", ["integration_id"]⟩] }

/-- Schema of `xray_projects` (`create_xray_projects_table`). -/
def xrayProjectsDef : TableDefS :=
  { name := "xray_projects",
    cols := ["project_id", "integration_id", "project_key", "project_name",
             "project_type", "created_at", "last_synced_at"],
    pk := ["project_id"], uniques := [],
    fks := [⟨["integration_id"], "tcm_integrations", ["integration_id"]⟩] }

/-- Schema of `traceability_matrix`
(`create_traceability_matrix_table`). -/
def traceabilityMatrixDef : TableDefS :=
  { name := "traceability_matrix",
    cols := ["matrix_id", "requirement_id", "version", "status",
             "traceability_data", "created_at", "updated_at"],
    pk := ["matrix_id"],
    uniques := [["requirement_id", "version"]], fks := [] }

/-- Schema of `plans` (`create_plans_table`). -/
def plansDef : TableDefS :=
  { name := "plans",
    cols := ["plan_id", "name", "description", "price", "duration", "limits",
             "is_active", "created_at", "updated_at"],
    pk := ["plan_id"],
    uniques := [["name"]], fks := [] }

/-- Schema of `subscriptions` (`create_subscriptions_table`). -/
def subscriptionsDef : TableDefS :=
  { name := "subscriptions",
    cols := ["subscription_id", "tenant_id", "plan_id", "status", "start_date",
             "end_date", "auto_renew", "created_at", "updated_at"],
    pk := ["subscription_id"],
    uniques := [["tenant_id"]],
    fks := [⟨["tenant_id"], "tenants", ["tenant_id"]⟩,
            ⟨["plan_id"], "plans", ["plan_id"]⟩] }

/-- Schema of `usage` (`create_usage_table`). -/
def usageDef : TableDefS :=
  { name := "usage",
    cols := ["usage_id", "subscription_id", "metric", "used", "limit",
             "reset_date", "created_at", "updated_at"],
    pk := ["usage_id"],
    uniques := [["subscription_id", "metric"]],
    fks := [⟨["subscription_id"], "subscriptions", ["subscription_id"]⟩] }

/-- The tables in the order `initialize_database` creates them. -/
def createOrder : List TableDefS :=
  [tenantsDef, requirementLabelsDef, requirementsDef, testcasesDef,
   sectionsDef, testcaseSectionMapDef, requirementTestcaseMapDef,
   usersDef, tcmIntegrationsDef, tcmCredentialsDef, tcmTestcaseMappingsDef,
   testrailProjectsDef, testrailSuitesDef, zephyrProjectsDef,
   xrayProjectsDef, traceabilityMatrixDef, plansDef, subscriptionsDef,
   usageDef]

/-- Shorthand for a plain (non-unique, non-partial) index. -/
def mkIdx (n t : String) (cs : List String) : IndexDefS :=
  ⟨n, t, cs, false, none⟩

/-- The non-unique indexes of `create_indexes`, in statement order. -/
def buildIndexes : List IndexDefS :=
  [mkIdx "idx_requirement_labels_tenant_id" "requirement_labels" ["tenant_id"],
   mkIdx "idx_requirement_labels_name" "requirement_labels" ["requirement_label"],
   mkIdx "idx_requirements_requirement_id" "requirements" ["requirement_id"],
   mkIdx "idx_requirements_label_id" "requirements" ["label_id"],
   mkIdx "idx_requirements_tenant_id" "requirements" ["tenant_id"],
   mkIdx "idx_requirements_version" "requirements" ["requirement_id", "version"],
   mkIdx "idx_requirements_label_id_version" "requirements" ["label_id", "version"],
   mkIdx "idx_testcases_testcase_id" "testcases" ["testcase_id"],
   mkIdx "idx_testcases_requirement_id" "testcases" ["requirement_id"],
   mkIdx "idx_testcases_version" "testcases" ["testcase_id", "version"],
   mkIdx "idx_testcases_derived_from" "testcases" ["derived_from_row_id"],
   mkIdx "idx_testcases_req_id_version" "testcases" ["requirement_id", "version"],
   mkIdx "idx_sections_tenant_id" "sections" ["tenant_id"],
   mkIdx "idx_sections_name" "sections" ["section_name"],
   mkIdx "idx_tsm_testcase_id" "testcase_section_map" ["testcase_id"],
   mkIdx "idx_tsm_section_id" "testcase_section_map" ["section_id"],
   mkIdx "idx_map_requirement_id" "requirement_testcase_map" ["requirement_id"],
   mkIdx "idx_map_testcase_id" "requirement_testcase_map" ["testcase_id"],
   mkIdx "idx_map_requirement_version" "requirement_testcase_map"
     ["requirement_id", "requirement_version"],
   mkIdx "idx_map_testcase_version" "requirement_testcase_map"
     ["testcase_id", "testcase_version"],
   mkIdx "idx_users_tenant_id" "users" ["tenant_id"],
   mkIdx "idx_users_email" "users" ["email"],
   mkIdx "idx_users_auth_provider" "users" ["auth_provider"],
   mkIdx "idx_tcm_integrations_tenant_id" "tcm_integrations" ["tenant_id"],
   mkIdx "idx_tcm_integrations_integrator_type" "tcm_integrations" ["integrator_type"],
   mkIdx "idx_tcm_credentials_integration_id" "tcm_credentials" ["integration_id"],
   mkIdx "idx_testrail_projects_integration_id" "testrail_projects" ["integration_id"],
   mkIdx "idx_testrail_projects_external_id" "testrail_projects" ["external_project_id"],
   mkIdx "idx_testrail_projects_is_active" "testrail_projects" ["is_active"],
   mkIdx "idx_testrail_projects_mode" "testrail_projects" ["project_mode"],
   mkIdx "idx_testrail_suites_project_id" "testrail_suites" ["project_id"],
   mkIdx "idx_testrail_suites_external_id" "testrail_suites" ["external_suite_id"],
   mkIdx "idx_testrail_suites_is_active" "testrail_suites" ["is_active"],
   mkIdx "idx_zephyr_projects_integration_id" "zephyr_projects" ["integration_id"],
   mkIdx "idx_zephyr_projects_project_key" "zephyr_projects" ["project_key"],
   mkIdx "idx_xray_projects_integration_id" "xray_projects" ["integration_id"],
   mkIdx "idx_xray_projects_project_key" "xray_projects" ["project_key"],
   mkIdx "idx_tcm_tc_mappings_tool" "tcm_testcase_mappings" ["tcm_tool"],
   mkIdx "idx_tcm_tc_mappings_external" "tcm_testcase_mappings" ["external_testcase_id"],
   mkIdx "idx_traceability_matrix_requirement_id" "traceability_matrix" ["requirement_id"],
   mkIdx "idx_traceability_matrix_version" "traceability_matrix" ["version"],
   mkIdx "idx_traceability_matrix_status" "traceability_matrix" ["status"],
   mkIdx "idx_plans_name" "plans" ["name"],
   mkIdx "idx_plans_is_active" "plans" ["is_active"],
   mkIdx "idx_subscriptions_tenant_id" "subscriptions" ["tenant_id"],
   mkIdx "idx_subscriptions_plan_id" "subscriptions" ["plan_id"],
   mkIdx "idx_subscriptions_status" "subscriptions" ["status"],
   mkIdx "idx_usage_subscription_id" "usage" ["subscription_id"],
   mkIdx "idx_usage_metric" "usage" ["metric"],
   mkIdx "idx_usage_reset_date" "usage" ["reset_date"]]

/-- The unique indexes of `create_indexes`, in statement order.  The
two partial ones carry their `WHERE col IS NOT NULL` restriction. -/
def buildUniqueIndexes : List IndexDefS :=
  [⟨"ux_tenants_primary_domain", "tenants", ["primary_domain"], true,
     some "primary_domain"⟩,
   ⟨"ux_users_provider_subject", "users", ["auth_provider", "external_subject"],
     true, some "external_subject"⟩,
   ⟨"ux_sections_tenant_name", "sections", ["tenant_id", "section_name"], true, none⟩,
   ⟨"ux_tsm_testcase_section", "testcase_section_map",
     ["testcase_id", "section_id"], true, none⟩,
   ⟨"ux_tcm_tc_map_testcase_tool", "tcm_testcase_mappings",
     ["testcase_id", "tcm_tool"], true, none⟩]

/-- Every index statement of `create_indexes`, in order. -/
def fixedIndexList : List IndexDefS := buildIndexes ++ buildUniqueIndexes

/-- The tables `create_triggers` equips with an `updated_at` trigger. -/
def updatedAtTables : List String :=
  ["requirement_labels", "requirements", "testcases", "tenants", "users",
   "tcm_integrations", "tcm_credentials", "traceability_matrix", "plans",
   "subscriptions", "usage"]

/-- The `BEFORE UPDATE` triggers stamping `updated_at`. -/
def buildTriggers : List TriggerDefS :=
  updatedAtTables.map (fun t =>
    ⟨"update_" ++ t ++ "_updated_at", t, "BEFORE UPDATE", "update_updated_at_column"⟩)

/-- The cascade-cleanup trigger on `tcm_testcase_mappings`. -/
def cascadeTriggerDef : TriggerDefS :=
  ⟨"trg_cascade_tcm_mapping_delete", "tcm_testcase_mappings", "AFTER DELETE",
   "cascade_delete_section_links_for_tcm"⟩

/-- All triggers the build installs. -/
def fixedTriggerList : List TriggerDefS := buildTriggers ++ [cascadeTriggerDef]

/-- The view `requirement_sections_v` and the tables its body joins. -/
def reqSectionsViewDef : ViewDefS :=
  ⟨"requirement_sections_v",
   ["requirement_testcase_map", "testcase_section_map", "sections"]⟩

/-- The default tenant row `insert_default_data` supplies. -/
def defaultTenantRow : Row :=
  [("tenant_id", .vs "00000000-0000-0000-0000-000000000000"),
   ("tenant_name", .vs "Default Tenant"),
   ("tenant_type", .vs "ORGANIZATION"),
   ("tenant_state", .vs "ACTIVE"),
   ("primary_domain", .vs "default.testcase-platform.com")]

/-- The `Free` plan row of `insert_default_plans`. -/
def planRowFree : Row :=
  [("name", .vs "Free"),
   ("description", .vs "Default free plan with limited features"),
   ("price", .vs "0.00"), ("duration", .vs "monthly"),
   ("limits", .vs "\x7b\"uploads\": 5, \"testcases\": 50, \"api_calls\": 1000\x7d"),
   ("is_active", .vb true)]

/-- The `Pro` plan row of `insert_default_plans`. -/
def planRowPro : Row :=
  [("name", .vs "Pro"),
   ("description", .vs "Professional plan with enhanced features"),
   ("price", .vs "99.00"), ("duration", .vs "monthly"),
   ("limits", .vs "\x7b\"uploads\": 500, \"testcases\": 5000, \"api_calls\": 100000\x7d"),
   ("is_active", .vb true)]

/-- The `Unlimited` plan row of `insert_default_plans`. -/
def planRowUnlimited : Row :=
  [("name", .vs "Unlimited"),
   ("description", .vs "Standalone unlimited plan"),
   ("price", .vs "0.00"), ("duration", .vs "lifetime"),
   ("limits", .vs "\x7b\"uploads\": -1, \"testcases\": -1, \"api_calls\": -1\x7d"),
   ("is_active", .vb true)]

/-- The tenant-seeding statement of `insert_default_data`. -/
def tenantSeedStmt : Stmt :=
  .insertOnConflictDoNothing "tenants" ["tenant_id"] [defaultTenantRow]

/-- The plan-seeding statement of `insert_default_plans`. -/
def planSeedStmt : Stmt :=
  .insertOnConflictDoNothing "plans" ["name"]
    [planRowFree, planRowPro, planRowUnlimited]

/-- The trigger-phase statements of `create_triggers`, in order.  The
source sends the final `DROP TRIGGER IF EXISTS` and `CREATE TRIGGER`
as one `execute_sql` call containing two statements; they appear here
as two consecutive statements. -/
def triggerStmts : List Stmt :=
  [Stmt.createOrReplaceFunction "update_updated_at_column"] ++
  buildTriggers.map Stmt.createTrigger ++
  [Stmt.createOrReplaceFunction "cascade_delete_section_links_for_tcm",
   Stmt.dropTriggerIfExists "trg_cascade_tcm_mapping_delete" "tcm_testcase_mappings",
   Stmt.createTrigger cascadeTriggerDef]

/-- The teardown statements of `drop_existing_tables`. -/
def dropPhaseStmts : List Stmt := dropList.map Stmt.dropTableIfExistsCascade

/-- The `CREATE TABLE` statements, in creation order. -/
def createPhaseStmts : List Stmt := createOrder.map Stmt.createTable

/-- The `CREATE INDEX` statements of `create_indexes`, in order. -/
def indexPhaseStmts : List Stmt := fixedIndexList.map Stmt.createIndexStmt

/-- The single statement of `create_views`. -/
def viewPhaseStmts : List Stmt := [Stmt.createOrReplaceView reqSectionsViewDef]

/-- The seeding statements of `insert_default_data` and
`insert_default_plans`. -/
def seedPhaseStmts : List Stmt := [tenantSeedStmt, planSeedStmt]

/-- The complete statement sequence of `initialize_database`, in the
exact order the script issues it: enable `pgcrypto`, drop every known
table, create the tables, the indexes, the triggers, the view, then
seed the default tenant and plans. -/
def buildStmts : List Stmt :=
  [Stmt.createExtensionIfNotExists "pgcrypto"] ++
  dropPhaseStmts ++ createPhaseStmts ++ indexPhaseStmts ++
  triggerStmts ++ viewPhaseStmts ++ seedPhaseStmts

deriving instance DecidableEq for Except

/-- Result of one invocation of `initialize_database`: the statements
attempted, the final outcome (the new state, or the offending
statement with the error re-raised to the caller), and whether the
`finally` block released the cursor and the connection. -/
structure InitRunResult where
  executed : List Stmt
  outcome : Except (Stmt × String) DBState
  cursorClosed : Bool
  connectionClosed : Bool
  deriving DecidableEq, Repr

/-- The `try / except (log, re-raise) / finally (close cursor, close
connection)` structure of `initialize_database`: on both exit paths the
cursor and connection are released, and a failure is passed through
unchanged after cleanup. -/
def initDbRun (db : DBState) : InitRunResult :=
  match runStmtsTrace buildStmts db with
  | (tr, .ok d) =>
      { executed := tr, outcome := .ok d,
        cursorClosed := true, connectionClosed := true }
  | (tr, .error e) =>
      { executed := tr, outcome := .error e,
        cursorClosed := true, connectionClosed := true }

/-! ## Normal form of a completed build -/

/-- Strip from a table definition every foreign key that references a
known table (the effect the cascade of the teardown phase has on
surviving tables). -/
def stripKnownFks (t : TableDefS) : TableDefS :=
  { t with fks := t.fks.filter (fun f => !(knownTables.contains f.refTable)) }

/-- Closed form of dropping every table in `ns` with cascade. -/
def dropManyState (ns : List String) (db : DBState) : DBState :=
  { db with
    tables := (db.tables.filter (fun e => !(ns.contains e.1.name))).map
      (fun e => ({ e.1 with fks := e.1.fks.filter (fun f => !(ns.contains f.refTable)) }, e.2)),
    indexes := db.indexes.filter (fun i => !(ns.contains i.table)),
    triggers := db.triggers.filter (fun t => !(ns.contains t.table)),
    views := db.views.filter (fun v => !(v.refTables.any (fun m => ns.contains m))) }

/-- The tables of a state that survive the teardown phase. -/
def leftoverTables (db : DBState) : List (TableDefS × List Row) :=
  (db.tables.filter (fun e => !(knownTables.contains e.1.name))).map
    (fun e => (stripKnownFks e.1, e.2))

/-- The indexes that survive the teardown phase. -/
def leftoverIndexes (db : DBState) : List IndexDefS :=
  db.indexes.filter (fun i => !(knownTables.contains i.table))

/-- The triggers that survive the teardown phase. -/
def leftoverTriggers (db : DBState) : List TriggerDefS :=
  db.triggers.filter (fun t => !(knownTables.contains t.table))

/-- The views that survive the teardown phase (a view is cascaded away
when it references any known table). -/
def leftoverViews (db : DBState) : List ViewDefS :=
  db.views.filter (fun v => !(v.refTables.any (fun m => knownTables.contains m)))

/-- The freshly created tables, before seeding: every table of
`createOrder` with no rows. -/
def tablesAfterCreate : List (TableDefS × List Row) :=
  createOrder.map (fun t => (t, []))

/-- Effect of `insert_default_data` on a tables list. -/
def seedTenantsUpdate (l : List (TableDefS × List Row)) :
    List (TableDefS × List Row) :=
  l.map (fun e => if e.1.name == "tenants" then
    (e.1, insertRowsOnConflict ["tenant_id"] e.2 [defaultTenantRow]) else e)

/-- Effect of `insert_default_plans` on a tables list. -/
def seedPlansUpdate (l : List (TableDefS × List Row)) :
    List (TableDefS × List Row) :=
  l.map (fun e => if e.1.name == "plans" then
    (e.1, insertRowsOnConflict ["name"] e.2 [planRowFree, planRowPro, planRowUnlimited]) else e)

/-- The fresh tables after both seeding statements. -/
def seededTables : List (TableDefS × List Row) :=
  seedPlansUpdate (seedTenantsUpdate tablesAfterCreate)

/-- The state a successful run of the build sequence leaves behind:
surviving foreign objects plus the full fixed schema and its seed
rows. -/
def normalizeDb (db : DBState) : DBState :=
  { extensions := addName "pgcrypto" db.extensions,
    tables := leftoverTables db ++ seededTables,
    indexes := leftoverIndexes db ++ fixedIndexList,
    views := (leftoverViews db).filter (fun v => !(v.name == "requirement_sections_v")) ++
      [reqSectionsViewDef],
    triggers := leftoverTriggers db ++ fixedTriggerList,
    funcs := addName "cascade_delete_section_links_for_tcm"
      (addName "update_updated_at_column" db.funcs) }

/-- The checks of a run of consecutive `CREATE TABLE` statements,
starting from the given tables list. -/
def canCreateChain (tbls : List (TableDefS × List Row)) :
    List TableDefS → Bool
  | [] => true
  | t :: ts =>
      !(tbls.any (fun e => e.1.name == t.name)) &&
      t.fks.all (fun f => fkResolved tbls t f) &&
      canCreateChain (tbls ++ [(t, [])]) ts

/-- The checks of a run of consecutive `CREATE INDEX` statements over a
fixed tables list, accumulating the created indexes. -/
def canIdxChain (tbls : List (TableDefS × List Row)) :
    List IndexDefS → List IndexDefS → Bool
  | _, [] => true
  | idxs, i :: is =>
      !(idxs.any (fun x => x.name == i.name)) &&
      tbls.any (fun e => e.1.name == i.table) &&
      canIdxChain tbls (idxs ++ [i]) is

/-- The checks of a run of consecutive `CREATE TRIGGER` statements over
a fixed tables list. -/
def canTrigChain (tbls : List (TableDefS × List Row)) :
    List TriggerDefS → List TriggerDefS → Bool
  | _, [] => true
  | trgs, t :: ts =>
      !(trgs.any (fun x => x.name == t.name && x.table == t.table)) &&
      tbls.any (fun e => e.1.name == t.table) &&
      canTrigChain tbls (trgs ++ [t]) ts

/-- The only way a run of the build sequence can fail once the teardown
is done: one of the fixed index names collides with an index that
survived the teardown (every other check of every later statement
passes unconditionally).  This is the index-phase check with the
post-teardown state plugged in. -/
def idxPhaseOk (db : DBState) : Bool :=
  canIdxChain (leftoverTables db ++ tablesAfterCreate) (leftoverIndexes db)
    fixedIndexList

/-- The rows currently stored in the named table, when it exists. -/
def tableRows (db : DBState) (n : String) : Option (List Row) :=
  (db.tables.find? (fun e => e.1.name == n)).map (fun e => e.2)

/-- A database state that makes the build fail: it already contains an
index whose name collides with the first index `create_indexes`
creates, attached to a table the teardown does not know. -/
def collidingDb : DBState :=
  { emptyDb with
    indexes := [mkIdx "idx_requirement_labels_tenant_id" "foreign_app_table" ["c"]] }

/-! ## Syntactic checks for the build order of the foreign keys -/

/-- A foreign key is backed by the given already-created table when the
names match, every referenced column exists there and, for a composite
key, the referenced column list is a declared composite unique
constraint of the target. -/
def fkClaimOkAgainst (created : List TableDefS) (f : FKeyDef) : Bool :=
  created.any (fun u => u.name == f.refTable &&
    f.refCols.all (fun c => u.cols.contains c) &&
    (decide (f.refCols.length ≤ 1) || u.uniques.contains f.refCols))

/-- Auxiliary walk: every foreign key of every statement references a
table created by a strictly earlier statement of the sequence. -/
def fksEarlierOkAux (created : List TableDefS) : List TableDefS → Bool
  | [] => true
  | t :: ts => t.fks.all (fun f => fkClaimOkAgainst created f) &&
      fksEarlierOkAux (created ++ [t]) ts

/-- Every foreign key of every `CREATE TABLE` statement of the sequence
references a table created strictly earlier (the property claimed by
the spec). -/
def fksEarlierOk (seq : List TableDefS) : Bool := fksEarlierOkAux [] seq

/-- Auxiliary walk allowing a foreign key to reference the table of its
own statement. -/
def fksEarlierOrSelfOkAux (created : List TableDefS) : List TableDefS → Bool
  | [] => true
  | t :: ts => t.fks.all (fun f => fkClaimOkAgainst (created ++ [t]) f) &&
      fksEarlierOrSelfOkAux (created ++ [t]) ts

/-- Every foreign key references a table created by an earlier
statement or by its own statement (self-reference). -/
def fksEarlierOrSelfOk (seq : List TableDefS) : Bool :=
  fksEarlierOrSelfOkAux [] seq

/-- The state right after the extension statement and the teardown
phase. -/
def dropState (db : DBState) : DBState :=
  { extensions := addName "pgcrypto" db.extensions,
    tables := leftoverTables db,
    indexes := leftoverIndexes db,
    views := leftoverViews db,
    triggers := leftoverTriggers db,
    funcs := db.funcs }

/-- The state after the create phase. -/
def createState (db : DBState) : DBState :=
  { dropState db with tables := leftoverTables db ++ tablesAfterCreate }

/-- The state after the index phase. -/
def indexState (db : DBState) : DBState :=
  { createState db with indexes := leftoverIndexes db ++ fixedIndexList }

/-- The state after the trigger phase. -/
def trigState (db : DBState) : DBState :=
  { indexState db with
    triggers := leftoverTriggers db ++ fixedTriggerList,
    funcs := addName "cascade_delete_section_links_for_tcm"
      (addName "update_updated_at_column" db.funcs) }

/-- The state after the view phase. -/
def viewState (db : DBState) : DBState :=
  { trigState db with
    views := (leftoverViews db).filter (fun v => !(v.name == "requirement_sections_v")) ++
      [reqSectionsViewDef] }

/-! ## Generic facts about the statement runner -/

theorem runStmts_append (l1 l2 : List Stmt) (db : DBState) :
    runStmts (l1 ++ l2) db =
      match runStmts l1 db with
      | .ok d => runStmts l2 d
      | .error e => .error e := by
  induction l1 generalizing db with
  | nil => simp [runStmts]
  | cons s rest ih =>
      simp only [List.cons_append, runStmts]
      cases applyStmt s db with
      | ok d => exact ih d
      | error m => rfl

theorem any_or_split {α : Type} (l : List α) (p q : α → Bool) :
    l.any (fun x => p x || q x) = (l.any p || l.any q) := by
  induction l with
  | nil => rfl
  | cons a l ih =>
      simp only [List.any_cons, ih]
      cases p a <;> cases q a <;> simp

theorem contains_eq_any {α : Type} [BEq α] [LawfulBEq α] (l : List α) (n : α) :
    l.contains n = l.any (fun m => m == n) := by
  induction l with
  | nil => rfl
  | cons a l ih =>
      simp only [List.contains_cons, List.any_cons, ih]
      by_cases h : n = a
      · subst h; simp
      · have h1 : (n == a) = false := beq_false_of_ne h
        have h2 : (a == n) = false := beq_false_of_ne (Ne.symm h)
        rw [h1, h2]

/-! ## The teardown phase -/

theorem filter_not_contains_cons {α : Type} (g : α → String) (n : String)
    (ns : List String) (l : List α) :
    (l.filter (fun x => !(g x == n))).filter (fun x => !(ns.contains (g x))) =
    l.filter (fun x => !((n :: ns).contains (g x))) := by
  rw [List.filter_filter]
  refine List.filter_congr (fun x _ => ?_)
  rw [List.contains_cons, Bool.not_or, Bool.and_comm]

theorem filter_not_refs_cons (n : String) (ns : List String) (l : List ViewDefS) :
    (l.filter (fun v => !(v.refTables.contains n))).filter
      (fun v => !(v.refTables.any (fun m => ns.contains m))) =
    l.filter (fun v => !(v.refTables.any (fun m => (n :: ns).contains m))) := by
  rw [List.filter_filter]
  refine List.filter_congr (fun v _ => ?_)
  have h1 : (v.refTables.any fun m => (n :: ns).contains m) =
      ((v.refTables.any fun m => m == n) || v.refTables.any fun m => ns.contains m) := by
    rw [← any_or_split]
    refine congrArg _ (funext fun m => ?_)
    rw [List.contains_cons]
  rw [h1, ← contains_eq_any, Bool.not_or, Bool.and_comm]

theorem dropTbls_cons (n : String) (ns : List String)
    (l : List (TableDefS × List Row)) :
    (((l.filter (fun e => !(e.1.name == n))).map
        (fun e => ({ e.1 with fks := e.1.fks.filter (fun f => !(f.refTable == n)) }, e.2))).filter
        (fun e => !(ns.contains e.1.name))).map
        (fun e => ({ e.1 with fks := e.1.fks.filter (fun f => !(ns.contains f.refTable)) }, e.2)) =
    (l.filter (fun e => !((n :: ns).contains e.1.name))).map
        (fun e => ({ e.1 with fks := e.1.fks.filter (fun f => !((n :: ns).contains f.refTable)) }, e.2)) := by
  rw [List.filter_map, List.map_map]
  rw [show ((fun e : TableDefS × List Row => !(ns.contains e.1.name)) ∘
      (fun e : TableDefS × List Row =>
        (({ e.1 with fks := e.1.fks.filter (fun f => !(f.refTable == n)) } : TableDefS), e.2))) =
      (fun e : TableDefS × List Row => !(ns.contains e.1.name)) from rfl]
  rw [filter_not_contains_cons (fun e => e.1.name) n ns l]
  refine List.map_congr_left (fun e _ => ?_)
  have h := filter_not_contains_cons (fun f : FKeyDef => f.refTable) n ns e.1.fks
  exact congrArg (fun fks => (({ e.1 with fks := fks } : TableDefS), e.2)) h

theorem dropManyState_nil (db : DBState) : dropManyState [] db = db := by
  cases db
  simp [dropManyState]

theorem dropManyState_cons (n : String) (ns : List String) (db : DBState) :
    dropManyState ns (dropTableAction n db) = dropManyState (n :: ns) db := by
  cases db with
  | mk exts tbls idxs vws trgs fns =>
      simp only [dropManyState, dropTableAction, DBState.mk.injEq, true_and, and_true]
      exact ⟨dropTbls_cons n ns tbls,
        filter_not_contains_cons (fun i => i.table) n ns idxs,
        filter_not_refs_cons n ns vws,
        filter_not_contains_cons (fun t => t.table) n ns trgs⟩

theorem runStmts_drops (ns : List String) (db : DBState) :
    runStmts (ns.map Stmt.dropTableIfExistsCascade) db = .ok (dropManyState ns db) := by
  induction ns generalizing db with
  | nil => rw [dropManyState_nil]; rfl
  | cons n ns ih =>
      show runStmts (ns.map Stmt.dropTableIfExistsCascade) (dropTableAction n db) = _
      rw [ih, dropManyState_cons]

/-! ## Pointwise facts about teardown survivors -/

theorem leftoverTables_no_known (db : DBState) :
    ∀ e ∈ leftoverTables db, knownTables.contains e.1.name = false := by
  intro e he
  unfold leftoverTables at he
  obtain ⟨x, hx, rfl⟩ := List.mem_map.mp he
  have h2 := (List.mem_filter.mp hx).2
  simpa [stripKnownFks] using h2

theorem leftoverTriggers_no_known (db : DBState) :
    ∀ t ∈ leftoverTriggers db, knownTables.contains t.table = false := by
  intro t ht
  have h2 := (List.mem_filter.mp ht).2
  simpa using h2

theorem leftoverIndexes_no_known (db : DBState) :
    ∀ i ∈ leftoverIndexes db, knownTables.contains i.table = false := by
  intro i hi
  have h2 := (List.mem_filter.mp hi).2
  simpa using h2

theorem any_name_false {l : List (TableDefS × List Row)}
    (h : ∀ e ∈ l, knownTables.contains e.1.name = false) {n : String}
    (hn : knownTables.contains n = true) :
    l.any (fun e => e.1.name == n) = false := by
  rw [List.any_eq_false]
  intro e he hb
  have hname : e.1.name = n := by simpa using hb
  rw [← hname] at hn
  rw [h e he] at hn
  exact Bool.false_ne_true hn

theorem find?_name_none {l : List (TableDefS × List Row)}
    (h : ∀ e ∈ l, knownTables.contains e.1.name = false) {n : String}
    (hn : knownTables.contains n = true) :
    l.find? (fun e => e.1.name == n) = none := by
  rw [List.find?_eq_none]
  intro e he hb
  have hname : e.1.name = n := by simpa using hb
  rw [← hname] at hn
  rw [h e he] at hn
  exact Bool.false_ne_true hn

theorem any_trig_false {l : List TriggerDefS}
    (h : ∀ t ∈ l, knownTables.contains t.table = false) {nm tb : String}
    (htb : knownTables.contains tb = true) :
    l.any (fun x => x.name == nm && x.table == tb) = false := by
  rw [List.any_eq_false]
  intro x hx hb
  have htab : x.table = tb := by
    have := (Bool.and_eq_true _ _).mp hb
    simpa using this.2
  rw [← htab] at htb
  rw [h x hx] at htb
  exact Bool.false_ne_true htb

/-! ## Facts about addName -/

theorem contains_addName_self (n : String) (l : List String) :
    (addName n l).contains n = true := by
  unfold addName
  by_cases h : l.contains n = true
  · rw [if_pos h]; exact h
  · rw [if_neg h]; simp

theorem addName_of_contains {n : String} {l : List String}
    (h : l.contains n = true) : addName n l = l := by
  unfold addName
  rw [if_pos h]

theorem contains_addName_mono {m : String} {l : List String} (n : String)
    (h : l.contains m = true) : (addName n l).contains m = true := by
  unfold addName
  by_cases hc : l.contains n = true
  · rw [if_pos hc]; exact h
  · rw [if_neg hc]
    have hm : m ∈ l := by simpa using h
    simp
    exact Or.inl hm

theorem addName_idem (n : String) (l : List String) :
    addName n (addName n l) = addName n l :=
  addName_of_contains (contains_addName_self n l)

/-! ## Congruence helper for all -/

theorem all_congr_local {α : Type} (l : List α) (p q : α → Bool)
    (h : ∀ x ∈ l, p x = q x) : l.all p = l.all q := by
  induction l with
  | nil => rfl
  | cons a l ih =>
      simp only [List.all_cons]
      rw [h a (by simp), ih (fun x hx => h x (by simp [hx]))]

/-! ## The create, index and trigger phases -/

theorem fkResolved_append {L C : List (TableDefS × List Row)} (t : TableDefS)
    (f : FKeyDef) (hL : ∀ e ∈ L, knownTables.contains e.1.name = false)
    (hf : knownTables.contains f.refTable = true) :
    fkResolved (L ++ C) t f = fkResolved C t f := by
  unfold fkResolved
  by_cases hs : (f.refTable == t.name) = true
  · rw [if_pos hs, if_pos hs]
  · rw [if_neg hs, if_neg hs]
    rw [List.find?_append, find?_name_none hL hf, Option.none_or]

theorem canCreateChain_append (L : List (TableDefS × List Row))
    (hL : ∀ e ∈ L, knownTables.contains e.1.name = false) :
    ∀ ts : List TableDefS,
      (∀ t ∈ ts, knownTables.contains t.name = true) →
      (∀ t ∈ ts, ∀ f ∈ t.fks, knownTables.contains f.refTable = true) →
      ∀ C : List (TableDefS × List Row),
        canCreateChain (L ++ C) ts = canCreateChain C ts := by
  intro ts
  induction ts with
  | nil => intro _ _ C; rfl
  | cons t ts ih =>
      intro hts hfk C
      unfold canCreateChain
      have e1 : (L ++ C).any (fun e => e.1.name == t.name) =
          C.any (fun e => e.1.name == t.name) := by
        rw [List.any_append, any_name_false hL (hts t (by simp)), Bool.false_or]
      have e3 : (t.fks.all fun f => fkResolved (L ++ C) t f) =
          (t.fks.all fun f => fkResolved C t f) :=
        all_congr_local _ _ _
          (fun f hf => fkResolved_append t f hL (hfk t (by simp) f hf))
      rw [e1, e3, List.append_assoc,
        ih (fun u hu => hts u (by simp [hu]))
          (fun u hu f hf => hfk u (by simp [hu]) f hf) (C ++ [(t, [])])]

theorem canIdxChain_tables_append (Lt : List (TableDefS × List Row))
    (hLt : ∀ e ∈ Lt, knownTables.contains e.1.name = false) :
    ∀ is : List IndexDefS,
      (∀ i ∈ is, knownTables.contains i.table = true) →
      ∀ (idxs : List IndexDefS) (Ct : List (TableDefS × List Row)),
        canIdxChain (Lt ++ Ct) idxs is = canIdxChain Ct idxs is := by
  intro is
  induction is with
  | nil => intro _ idxs Ct; rfl
  | cons i is ih =>
      intro his idxs Ct
      unfold canIdxChain
      rw [List.any_append, any_name_false hLt (his i (by simp)), Bool.false_or,
        ih (fun j hj => his j (by simp [hj])) (idxs ++ [i]) Ct]

theorem canTrigChain_reduce (Lt : List (TableDefS × List Row))
    (hLt : ∀ e ∈ Lt, knownTables.contains e.1.name = false)
    (Ltr : List TriggerDefS)
    (hLtr : ∀ t ∈ Ltr, knownTables.contains t.table = false) :
    ∀ ts : List TriggerDefS,
      (∀ t ∈ ts, knownTables.contains t.table = true) →
      ∀ (acc : List TriggerDefS) (Ct : List (TableDefS × List Row)),
        canTrigChain (Lt ++ Ct) (Ltr ++ acc) ts = canTrigChain Ct acc ts := by
  intro ts
  induction ts with
  | nil => intro _ acc Ct; rfl
  | cons t ts ih =>
      intro hts acc Ct
      unfold canTrigChain
      rw [List.any_append, any_trig_false hLtr (hts t (by simp)), Bool.false_or]
      rw [List.any_append, any_name_false hLt (hts t (by simp)), Bool.false_or]
      rw [List.append_assoc,
        ih (fun u hu => hts u (by simp [hu])) (acc ++ [t]) Ct]

theorem runStmts_creates :
    ∀ (ts : List TableDefS) (db : DBState),
      canCreateChain db.tables ts = true →
      runStmts (ts.map Stmt.createTable) db =
        .ok { db with tables := db.tables ++ ts.map (fun t => (t, [])) } := by
  intro ts
  induction ts with
  | nil =>
      intro db _
      cases db
      simp [runStmts]
  | cons t ts ih =>
      intro db h
      unfold canCreateChain at h
      rw [Bool.and_eq_true, Bool.and_eq_true, Bool.not_eq_true'] at h
      obtain ⟨⟨h1, h2⟩, h3⟩ := h
      simp only [List.map_cons, runStmts, applyStmt, h1, h2, Bool.not_true,
        Bool.false_eq_true, if_false, ite_false]
      rw [ih _ h3]
      cases db
      simp

theorem runStmts_indexes_ok :
    ∀ (is : List IndexDefS) (db : DBState),
      canIdxChain db.tables db.indexes is = true →
      runStmts (is.map Stmt.createIndexStmt) db =
        .ok { db with indexes := db.indexes ++ is } := by
  intro is
  induction is with
  | nil =>
      intro db _
      cases db
      simp [runStmts]
  | cons i is ih =>
      intro db h
      unfold canIdxChain at h
      rw [Bool.and_eq_true, Bool.and_eq_true, Bool.not_eq_true'] at h
      obtain ⟨⟨h1, h2⟩, h3⟩ := h
      simp only [List.map_cons, runStmts, applyStmt, tableExists, h1, h2,
        Bool.not_true, Bool.false_eq_true, if_false, ite_false]
      rw [ih _ h3]
      cases db
      simp

theorem runStmts_indexes_chain :
    ∀ (is : List IndexDefS) (db d : DBState),
      runStmts (is.map Stmt.createIndexStmt) db = .ok d →
      canIdxChain db.tables db.indexes is = true := by
  intro is
  induction is with
  | nil => intro db d _; rfl
  | cons i is ih =>
      intro db d h
      unfold canIdxChain
      cases h1 : db.indexes.any (fun x => x.name == i.name) with
      | true =>
          exfalso
          simp only [List.map_cons, runStmts, applyStmt, h1, if_true] at h
          exact Except.noConfusion h
      | false =>
          cases h2 : db.tables.any (fun e => e.1.name == i.table) with
          | false =>
              exfalso
              simp only [List.map_cons, runStmts, applyStmt, tableExists, h1, h2,
                Bool.false_eq_true, if_false, Bool.not_false, if_true] at h
              exact Except.noConfusion h
          | true =>
              have h' : runStmts (is.map Stmt.createIndexStmt)
                  { db with indexes := db.indexes ++ [i] } = .ok d := by
                simpa only [List.map_cons, runStmts, applyStmt, tableExists, h1, h2,
                  Bool.false_eq_true, if_false, Bool.not_true, ite_false] using h
              simp only [Bool.not_false, Bool.true_and, Bool.and_true]
              exact ih _ d h'

theorem runStmts_triggers :
    ∀ (ts : List TriggerDefS) (db : DBState),
      canTrigChain db.tables db.triggers ts = true →
      runStmts (ts.map Stmt.createTrigger) db =
        .ok { db with triggers := db.triggers ++ ts } := by
  intro ts
  induction ts with
  | nil =>
      intro db _
      cases db
      simp [runStmts]
  | cons t ts ih =>
      intro db h
      unfold canTrigChain at h
      rw [Bool.and_eq_true, Bool.and_eq_true, Bool.not_eq_true'] at h
      obtain ⟨⟨h1, h2⟩, h3⟩ := h
      simp only [List.map_cons, runStmts, applyStmt, tableExists, h1, h2,
        Bool.not_true, Bool.false_eq_true, if_false, ite_false]
      rw [ih _ h3]
      cases db
      simp

/-! ## Discharging the chain conditions after a teardown -/

theorem canCreateChain_leftover (db : DBState) :
    canCreateChain (leftoverTables db) createOrder = true := by
  have h := canCreateChain_append (leftoverTables db) (leftoverTables_no_known db)
    createOrder (by decide) (by decide) []
  rw [List.append_nil] at h
  rw [h]
  decide

theorem canTrigChain_leftover (Lt : List (TableDefS × List Row))
    (hLt : ∀ e ∈ Lt, knownTables.contains e.1.name = false)
    (Ltr : List TriggerDefS)
    (hLtr : ∀ t ∈ Ltr, knownTables.contains t.table = false) :
    canTrigChain (Lt ++ tablesAfterCreate) Ltr buildTriggers = true := by
  have h := canTrigChain_reduce Lt hLt Ltr hLtr buildTriggers (by decide)
    [] tablesAfterCreate
  rw [List.append_nil] at h
  rw [h]
  decide

theorem idxPhase_reduce (db : DBState) :
    canIdxChain (leftoverTables db ++ tablesAfterCreate) (leftoverIndexes db)
      fixedIndexList =
    canIdxChain tablesAfterCreate (leftoverIndexes db) fixedIndexList :=
  canIdxChain_tables_append (leftoverTables db) (leftoverTables_no_known db)
    fixedIndexList (by decide) (leftoverIndexes db) tablesAfterCreate

theorem tableExists_created (L : List (TableDefS × List Row)) (n : String)
    (hn : tablesAfterCreate.any (fun e => e.1.name == n) = true) :
    (L ++ tablesAfterCreate).any (fun e => e.1.name == n) = true := by
  rw [List.any_append, hn, Bool.or_true]

theorem seedUpdate_append (L X : List (TableDefS × List Row))
    (hL : ∀ e ∈ L, knownTables.contains e.1.name = false)
    (n : String) (hn : knownTables.contains n = true) (g : List Row → List Row) :
    (L ++ X).map (fun e => if e.1.name == n then (e.1, g e.2) else e) =
    L ++ X.map (fun e => if e.1.name == n then (e.1, g e.2) else e) := by
  rw [List.map_append]
  congr 1
  have hid : ∀ e ∈ L, (if e.1.name == n then (e.1, g e.2) else e) = id e := by
    intro e he
    have hne : (e.1.name == n) = false := by
      by_cases hq : e.1.name = n
      · exfalso
        have hc := hL e he
        rw [hq] at hc
        rw [hc] at hn
        exact Bool.false_ne_true hn
      · exact beq_false_of_ne hq
    rw [hne]
    rfl
  rw [List.map_congr_left hid, List.map_id]

/-! ## Running the whole build sequence -/

theorem run_prefix_drop (db : DBState) :
    runStmts ([Stmt.createExtensionIfNotExists "pgcrypto"] ++ dropPhaseStmts) db =
      .ok (dropState db) :=
  runStmts_drops dropList { db with extensions := addName "pgcrypto" db.extensions }

theorem run_prefix_create (db : DBState) :
    runStmts (([Stmt.createExtensionIfNotExists "pgcrypto"] ++ dropPhaseStmts) ++
      createPhaseStmts) db = .ok (createState db) := by
  rw [runStmts_append, run_prefix_drop]
  exact runStmts_creates createOrder (dropState db) (canCreateChain_leftover db)

theorem run_prefix_index (db : DBState) (h : idxPhaseOk db = true) :
    runStmts ((([Stmt.createExtensionIfNotExists "pgcrypto"] ++ dropPhaseStmts) ++
      createPhaseStmts) ++ indexPhaseStmts) db = .ok (indexState db) := by
  rw [runStmts_append, run_prefix_create]
  exact runStmts_indexes_ok fixedIndexList (createState db) h

theorem runStmts_cons_ok {s : Stmt} {db d : DBState} (h : applyStmt s db = .ok d)
    (rest : List Stmt) : runStmts (s :: rest) db = runStmts rest d := by
  simp only [runStmts, h]

theorem run_triggers_generic (exts : List String)
    (Lt : List (TableDefS × List Row)) (Li : List IndexDefS)
    (vws : List ViewDefS) (Ltr : List TriggerDefS) (fns : List String)
    (hLt : ∀ e ∈ Lt, knownTables.contains e.1.name = false)
    (hLtr : ∀ t ∈ Ltr, knownTables.contains t.table = false) :
    runStmts triggerStmts ⟨exts, Lt ++ tablesAfterCreate, Li, vws, Ltr, fns⟩ =
      .ok ⟨exts, Lt ++ tablesAfterCreate, Li, vws, Ltr ++ fixedTriggerList,
        addName "cascade_delete_section_links_for_tcm"
          (addName "update_updated_at_column" fns)⟩ := by
  have hKeep : (Ltr ++ buildTriggers).filter
      (fun x => !(x.name == "trg_cascade_tcm_mapping_delete" &&
        x.table == "tcm_testcase_mappings")) = Ltr ++ buildTriggers := by
    rw [List.filter_eq_self]
    intro x hx
    rcases List.mem_append.mp hx with hl | hr
    · have htab := hLtr x hl
      have hne : (x.table == "tcm_testcase_mappings") = false := by
        by_cases hq : x.table = "tcm_testcase_mappings"
        · exfalso
          rw [hq] at htab
          exact absurd htab (by decide)
        · exact beq_false_of_ne hq
      rw [hne, Bool.and_false, Bool.not_false]
    · have hAll : ∀ x ∈ buildTriggers,
          (!(x.name == "trg_cascade_tcm_mapping_delete" &&
            x.table == "tcm_testcase_mappings")) = true := by decide
      exact hAll x hr
  have hNoColl : (Ltr ++ buildTriggers).any
      (fun x => x.name == cascadeTriggerDef.name &&
        x.table == cascadeTriggerDef.table) = false := by
    rw [List.any_append, any_trig_false hLtr (by decide), Bool.false_or]
    decide
  have step1 : runStmts triggerStmts ⟨exts, Lt ++ tablesAfterCreate, Li, vws, Ltr, fns⟩ =
      runStmts (buildTriggers.map Stmt.createTrigger ++
        [Stmt.createOrReplaceFunction "cascade_delete_section_links_for_tcm",
         Stmt.dropTriggerIfExists "trg_cascade_tcm_mapping_delete" "tcm_testcase_mappings",
         Stmt.createTrigger cascadeTriggerDef])
        ⟨exts, Lt ++ tablesAfterCreate, Li, vws, Ltr,
          addName "update_updated_at_column" fns⟩ := rfl
  rw [step1, runStmts_append]
  have step2 : runStmts (buildTriggers.map Stmt.createTrigger)
      ⟨exts, Lt ++ tablesAfterCreate, Li, vws, Ltr,
        addName "update_updated_at_column" fns⟩ =
      .ok ⟨exts, Lt ++ tablesAfterCreate, Li, vws, Ltr ++ buildTriggers,
        addName "update_updated_at_column" fns⟩ :=
    runStmts_triggers buildTriggers _ (canTrigChain_leftover Lt hLt Ltr hLtr)
  rw [step2]
  have hEx : tableExists ⟨exts, Lt ++ tablesAfterCreate, Li, vws,
      Ltr ++ buildTriggers,
      addName "cascade_delete_section_links_for_tcm"
        (addName "update_updated_at_column" fns)⟩ "tcm_testcase_mappings" = true :=
    tableExists_created Lt _ (by decide)
  have step3 : applyStmt (Stmt.dropTriggerIfExists "trg_cascade_tcm_mapping_delete"
      "tcm_testcase_mappings")
      ⟨exts, Lt ++ tablesAfterCreate, Li, vws, Ltr ++ buildTriggers,
        addName "cascade_delete_section_links_for_tcm"
          (addName "update_updated_at_column" fns)⟩ =
      .ok ⟨exts, Lt ++ tablesAfterCreate, Li, vws, Ltr ++ buildTriggers,
        addName "cascade_delete_section_links_for_tcm"
          (addName "update_updated_at_column" fns)⟩ := by
    simp only [applyStmt, hEx, Bool.not_true, Bool.false_eq_true, ite_false, hKeep]
  have hExC : tableExists ⟨exts, Lt ++ tablesAfterCreate, Li, vws,
      Ltr ++ buildTriggers,
      addName "cascade_delete_section_links_for_tcm"
        (addName "update_updated_at_column" fns)⟩ cascadeTriggerDef.table = true :=
    tableExists_created Lt _ (by decide)
  have step4 : applyStmt (Stmt.createTrigger cascadeTriggerDef)
      ⟨exts, Lt ++ tablesAfterCreate, Li, vws, Ltr ++ buildTriggers,
        addName "cascade_delete_section_links_for_tcm"
          (addName "update_updated_at_column" fns)⟩ =
      .ok ⟨exts, Lt ++ tablesAfterCreate, Li, vws,
        (Ltr ++ buildTriggers) ++ [cascadeTriggerDef],
        addName "cascade_delete_section_links_for_tcm"
          (addName "update_updated_at_column" fns)⟩ := by
    simp only [applyStmt, hNoColl, Bool.false_eq_true, ite_false, hExC,
      Bool.not_true, if_false]
  show runStmts
      [Stmt.createOrReplaceFunction "cascade_delete_section_links_for_tcm",
       Stmt.dropTriggerIfExists "trg_cascade_tcm_mapping_delete" "tcm_testcase_mappings",
       Stmt.createTrigger cascadeTriggerDef]
      ⟨exts, Lt ++ tablesAfterCreate, Li, vws, Ltr ++ buildTriggers,
        addName "update_updated_at_column" fns⟩ = _
  have stepF : applyStmt
      (Stmt.createOrReplaceFunction "cascade_delete_section_links_for_tcm")
      ⟨exts, Lt ++ tablesAfterCreate, Li, vws, Ltr ++ buildTriggers,
        addName "update_updated_at_column" fns⟩ =
      .ok ⟨exts, Lt ++ tablesAfterCreate, Li, vws, Ltr ++ buildTriggers,
        addName "cascade_delete_section_links_for_tcm"
          (addName "update_updated_at_column" fns)⟩ := rfl
  rw [runStmts_cons_ok stepF, runStmts_cons_ok step3, runStmts_cons_ok step4]
  rw [List.append_assoc]
  rfl

theorem run_triggers_phase (db : DBState) :
    runStmts triggerStmts (indexState db) = .ok (trigState db) :=
  run_triggers_generic (addName "pgcrypto" db.extensions) (leftoverTables db)
    (leftoverIndexes db ++ fixedIndexList) (leftoverViews db)
    (leftoverTriggers db) db.funcs
    (leftoverTables_no_known db) (leftoverTriggers_no_known db)

theorem tableExists_record (exts : List String) (Lt : List (TableDefS × List Row))
    (Li : List IndexDefS) (vws : List ViewDefS) (Ltr : List TriggerDefS)
    (fns : List String) (n : String)
    (hn : tablesAfterCreate.any (fun e => e.1.name == n) = true) :
    tableExists ⟨exts, Lt ++ tablesAfterCreate, Li, vws, Ltr, fns⟩ n = true :=
  tableExists_created Lt n hn

theorem run_view_generic (exts : List String) (Lt : List (TableDefS × List Row))
    (Li : List IndexDefS) (vws : List ViewDefS) (Ltr : List TriggerDefS)
    (fns : List String) :
    applyStmt (Stmt.createOrReplaceView reqSectionsViewDef)
      ⟨exts, Lt ++ tablesAfterCreate, Li, vws, Ltr, fns⟩ =
    .ok ⟨exts, Lt ++ tablesAfterCreate, Li,
      vws.filter (fun x => !(x.name == "requirement_sections_v")) ++
        [reqSectionsViewDef], Ltr, fns⟩ := by
  have h1 := tableExists_record exts Lt Li vws Ltr fns "requirement_testcase_map"
    (by decide)
  have h2 := tableExists_record exts Lt Li vws Ltr fns "testcase_section_map"
    (by decide)
  have h3 := tableExists_record exts Lt Li vws Ltr fns "sections" (by decide)
  simp only [applyStmt, reqSectionsViewDef, List.all_cons, List.all_nil, h1, h2, h3,
    Bool.and_true, Bool.and_self, Bool.not_true, Bool.false_eq_true, ite_false]

theorem seedInsert_tables (L X : List (TableDefS × List Row))
    (hL : ∀ e ∈ L, knownTables.contains e.1.name = false) (n : String)
    (hn : knownTables.contains n = true) (ccols : List String) (rows : List Row) :
    (L ++ X).map (fun e =>
      if e.1.name == n then (e.1, insertRowsOnConflict ccols e.2 rows) else e) =
    L ++ X.map (fun e =>
      if e.1.name == n then (e.1, insertRowsOnConflict ccols e.2 rows) else e) :=
  seedUpdate_append L X hL n hn (fun r => insertRowsOnConflict ccols r rows)

theorem run_seed_generic (exts : List String) (Lt : List (TableDefS × List Row))
    (Li : List IndexDefS) (vws : List ViewDefS) (Ltr : List TriggerDefS)
    (fns : List String)
    (hLt : ∀ e ∈ Lt, knownTables.contains e.1.name = false) :
    runStmts seedPhaseStmts ⟨exts, Lt ++ tablesAfterCreate, Li, vws, Ltr, fns⟩ =
    .ok ⟨exts, Lt ++ seededTables, Li, vws, Ltr, fns⟩ := by
  have hEx1 := tableExists_record exts Lt Li vws Ltr fns "tenants" (by decide)
  have st1 : applyStmt tenantSeedStmt
      ⟨exts, Lt ++ tablesAfterCreate, Li, vws, Ltr, fns⟩ =
      .ok ⟨exts, Lt ++ seedTenantsUpdate tablesAfterCreate, Li, vws, Ltr, fns⟩ := by
    simp only [tenantSeedStmt, applyStmt, hEx1, Bool.not_true, Bool.false_eq_true,
      ite_false]
    rw [seedInsert_tables Lt tablesAfterCreate hLt "tenants" (by decide)]
    rfl
  have hEx2 : tableExists
      ⟨exts, Lt ++ seedTenantsUpdate tablesAfterCreate, Li, vws, Ltr, fns⟩
      "plans" = true := by
    show ((Lt ++ seedTenantsUpdate tablesAfterCreate).any
      (fun e => e.1.name == "plans")) = true
    rw [List.any_append]
    have : (seedTenantsUpdate tablesAfterCreate).any
        (fun e => e.1.name == "plans") = true := by decide
    rw [this, Bool.or_true]
  have hLt2 : ∀ e ∈ Lt, knownTables.contains e.1.name = false := hLt
  have st2 : applyStmt planSeedStmt
      ⟨exts, Lt ++ seedTenantsUpdate tablesAfterCreate, Li, vws, Ltr, fns⟩ =
      .ok ⟨exts, Lt ++ seededTables, Li, vws, Ltr, fns⟩ := by
    simp only [planSeedStmt, applyStmt, hEx2, Bool.not_true, Bool.false_eq_true,
      ite_false]
    rw [seedInsert_tables Lt (seedTenantsUpdate tablesAfterCreate) hLt2 "plans"
      (by decide)]
    rfl
  show runStmts [tenantSeedStmt, planSeedStmt] _ = _
  rw [runStmts_cons_ok st1, runStmts_cons_ok st2]
  rfl

theorem run_prefix_trig (db : DBState) (h : idxPhaseOk db = true) :
    runStmts (((([Stmt.createExtensionIfNotExists "pgcrypto"] ++ dropPhaseStmts) ++
      createPhaseStmts) ++ indexPhaseStmts) ++ triggerStmts) db =
    .ok (trigState db) := by
  rw [runStmts_append, run_prefix_index db h]
  exact run_triggers_phase db

theorem run_prefix_view (db : DBState) (h : idxPhaseOk db = true) :
    runStmts ((((([Stmt.createExtensionIfNotExists "pgcrypto"] ++ dropPhaseStmts) ++
      createPhaseStmts) ++ indexPhaseStmts) ++ triggerStmts) ++ viewPhaseStmts) db =
    .ok (viewState db) := by
  rw [runStmts_append, run_prefix_trig db h]
  show runStmts viewPhaseStmts (trigState db) = _
  have hv : applyStmt (Stmt.createOrReplaceView reqSectionsViewDef) (trigState db) =
      .ok (viewState db) :=
    run_view_generic (addName "pgcrypto" db.extensions) (leftoverTables db)
      (leftoverIndexes db ++ fixedIndexList) (leftoverViews db)
      (leftoverTriggers db ++ fixedTriggerList)
      (addName "cascade_delete_section_links_for_tcm"
        (addName "update_updated_at_column" db.funcs))
  rw [show viewPhaseStmts = [Stmt.createOrReplaceView reqSectionsViewDef] from rfl,
    runStmts_cons_ok hv]
  rfl

theorem runInit_ok (db : DBState) (h : idxPhaseOk db = true) :
    runStmts buildStmts db = .ok (normalizeDb db) := by
  show runStmts ((((([Stmt.createExtensionIfNotExists "pgcrypto"] ++ dropPhaseStmts) ++
      createPhaseStmts) ++ indexPhaseStmts) ++ triggerStmts) ++ viewPhaseStmts ++
      seedPhaseStmts) db = _
  rw [runStmts_append, run_prefix_view db h]
  show runStmts seedPhaseStmts (viewState db) = _
  exact run_seed_generic (addName "pgcrypto" db.extensions) (leftoverTables db)
    (leftoverIndexes db ++ fixedIndexList)
    ((leftoverViews db).filter (fun v => !(v.name == "requirement_sections_v")) ++
      [reqSectionsViewDef])
    (leftoverTriggers db ++ fixedTriggerList)
    (addName "cascade_delete_section_links_for_tcm"
      (addName "update_updated_at_column" db.funcs))
    (leftoverTables_no_known db)

theorem runStmts_append_ok_left {l1 l2 : List Stmt} {db d : DBState}
    (h : runStmts (l1 ++ l2) db = .ok d) : ∃ mid, runStmts l1 db = .ok mid := by
  rw [runStmts_append] at h
  cases hm : runStmts l1 db with
  | ok m => exact ⟨m, rfl⟩
  | error e =>
      rw [hm] at h
      exact absurd h (by simp)

theorem runStmts_append_ok_step (l1 l2 : List Stmt) (db mid : DBState)
    (h1 : runStmts l1 db = .ok mid) :
    runStmts (l1 ++ l2) db = runStmts l2 mid := by
  rw [runStmts_append, h1]

theorem runInit_shape (db d : DBState) (h : runStmts buildStmts db = .ok d) :
    idxPhaseOk db = true ∧ d = normalizeDb db := by
  have hre : runStmts ((((([Stmt.createExtensionIfNotExists "pgcrypto"] ++
      dropPhaseStmts) ++ createPhaseStmts) ++ indexPhaseStmts) ++ triggerStmts) ++
      viewPhaseStmts ++ seedPhaseStmts) db = .ok d := h
  obtain ⟨m1, hm1⟩ := runStmts_append_ok_left hre
  obtain ⟨m2, hm2⟩ := runStmts_append_ok_left hm1
  obtain ⟨m3, hm3⟩ := runStmts_append_ok_left hm2
  have hIdx : runStmts indexPhaseStmts (createState db) = .ok m3 := by
    rw [← runStmts_append_ok_step _ _ _ _ (run_prefix_create db)]
    exact hm3
  have hchain : idxPhaseOk db = true :=
    runStmts_indexes_chain fixedIndexList (createState db) m3 hIdx
  refine ⟨hchain, ?_⟩
  have hok := runInit_ok db hchain
  rw [h] at hok
  exact Except.ok.inj hok

/-! ## Idempotence of the normal form -/

theorem stripKnownFks_idem (t : TableDefS) :
    stripKnownFks (stripKnownFks t) = stripKnownFks t := by
  unfold stripKnownFks
  rw [List.filter_filter]
  exact congrArg (fun fks => { t with fks := fks })
    (List.filter_congr (fun f _ => Bool.and_self _))

theorem filter_idem {α : Type} (l : List α) (p : α → Bool) :
    (l.filter p).filter p = l.filter p := by
  rw [List.filter_filter]
  exact List.filter_congr (fun a _ => Bool.and_self _)

theorem map_strip_leftover (db : DBState) :
    (leftoverTables db).map (fun e => (stripKnownFks e.1, e.2)) =
    leftoverTables db := by
  unfold leftoverTables
  rw [List.map_map]
  refine List.map_congr_left (fun e _ => ?_)
  show (stripKnownFks (stripKnownFks e.1), e.2) = (stripKnownFks e.1, e.2)
  rw [stripKnownFks_idem]

theorem leftoverTables_normalize (db : DBState) :
    leftoverTables (normalizeDb db) = leftoverTables db := by
  show (((leftoverTables db ++ seededTables).filter
      (fun e => !(knownTables.contains e.1.name))).map
      (fun e => (stripKnownFks e.1, e.2))) = leftoverTables db
  rw [List.filter_append,
    show seededTables.filter (fun e => !(knownTables.contains e.1.name)) = []
      from by decide,
    List.append_nil,
    List.filter_eq_self.mpr
      (fun e he => by rw [leftoverTables_no_known db e he]; rfl)]
  exact map_strip_leftover db

theorem leftoverIndexes_normalize (db : DBState) :
    leftoverIndexes (normalizeDb db) = leftoverIndexes db := by
  show (leftoverIndexes db ++ fixedIndexList).filter
      (fun i => !(knownTables.contains i.table)) = leftoverIndexes db
  rw [List.filter_append,
    show fixedIndexList.filter (fun i => !(knownTables.contains i.table)) = []
      from by decide,
    List.append_nil]
  exact List.filter_eq_self.mpr
    (fun i hi => by rw [leftoverIndexes_no_known db i hi]; rfl)

theorem leftoverTriggers_normalize (db : DBState) :
    leftoverTriggers (normalizeDb db) = leftoverTriggers db := by
  show (leftoverTriggers db ++ fixedTriggerList).filter
      (fun t => !(knownTables.contains t.table)) = leftoverTriggers db
  rw [List.filter_append,
    show fixedTriggerList.filter (fun t => !(knownTables.contains t.table)) = []
      from by decide,
    List.append_nil]
  exact List.filter_eq_self.mpr
    (fun t ht => by rw [leftoverTriggers_no_known db t ht]; rfl)

theorem leftoverViews_no_refs (db : DBState) :
    ∀ v ∈ leftoverViews db,
      (v.refTables.any (fun m => knownTables.contains m)) = false := by
  intro v hv
  have h2 := (List.mem_filter.mp hv).2
  simpa using h2

theorem leftoverViews_normalize (db : DBState) :
    leftoverViews (normalizeDb db) =
    (leftoverViews db).filter (fun v => !(v.name == "requirement_sections_v")) := by
  show ((leftoverViews db).filter (fun v => !(v.name == "requirement_sections_v")) ++
      [reqSectionsViewDef]).filter
      (fun v => !(v.refTables.any (fun m => knownTables.contains m))) = _
  rw [List.filter_append,
    show [reqSectionsViewDef].filter
      (fun v => !(v.refTables.any (fun m => knownTables.contains m))) = []
      from by decide,
    List.append_nil]
  refine List.filter_eq_self.mpr (fun v hv => ?_)
  have hm := (List.mem_filter.mp hv).1
  rw [leftoverViews_no_refs db v hm]
  rfl

theorem funcs_normalize (f : List String) :
    addName "cascade_delete_section_links_for_tcm"
      (addName "update_updated_at_column"
        (addName "cascade_delete_section_links_for_tcm"
          (addName "update_updated_at_column" f))) =
    addName "cascade_delete_section_links_for_tcm"
      (addName "update_updated_at_column" f) := by
  have h1 : addName "update_updated_at_column"
      (addName "cascade_delete_section_links_for_tcm"
        (addName "update_updated_at_column" f)) =
      addName "cascade_delete_section_links_for_tcm"
        (addName "update_updated_at_column" f) :=
    addName_of_contains (contains_addName_mono _ (contains_addName_self _ _))
  rw [h1, addName_idem]

theorem normalizeDb_idem (db : DBState) :
    normalizeDb (normalizeDb db) = normalizeDb db := by
  have ht := leftoverTables_normalize db
  have hi := leftoverIndexes_normalize db
  have hg := leftoverTriggers_normalize db
  have hv := leftoverViews_normalize db
  show DBState.mk
      (addName "pgcrypto" (normalizeDb db).extensions)
      (leftoverTables (normalizeDb db) ++ seededTables)
      (leftoverIndexes (normalizeDb db) ++ fixedIndexList)
      ((leftoverViews (normalizeDb db)).filter
        (fun v => !(v.name == "requirement_sections_v")) ++ [reqSectionsViewDef])
      (leftoverTriggers (normalizeDb db) ++ fixedTriggerList)
      (addName "cascade_delete_section_links_for_tcm"
        (addName "update_updated_at_column" (normalizeDb db).funcs)) = _
  rw [ht, hi, hg, hv]
  show DBState.mk
      (addName "pgcrypto" (addName "pgcrypto" db.extensions)) _ _
      (((leftoverViews db).filter (fun v => !(v.name == "requirement_sections_v"))).filter
        (fun v => !(v.name == "requirement_sections_v")) ++ [reqSectionsViewDef]) _
      (addName "cascade_delete_section_links_for_tcm"
        (addName "update_updated_at_column"
          (addName "cascade_delete_section_links_for_tcm"
            (addName "update_updated_at_column" db.funcs)))) = _
  rw [addName_idem, filter_idem, funcs_normalize]
  rfl

theorem idxPhaseOk_normalize (db : DBState) :
    idxPhaseOk (normalizeDb db) = idxPhaseOk db := by
  unfold idxPhaseOk
  rw [leftoverTables_normalize, leftoverIndexes_normalize]

theorem runInit_idem (db d1 : DBState) (h : runStmts buildStmts db = .ok d1) :
    runStmts buildStmts d1 = .ok d1 := by
  obtain ⟨hidx, rfl⟩ := runInit_shape db d1 h
  have h2 : idxPhaseOk (normalizeDb db) = true := by
    rw [idxPhaseOk_normalize]
    exact hidx
  have h3 := runInit_ok (normalizeDb db) h2
  rw [normalizeDb_idem] at h3
  exact h3

/-! ## Fail-fast facts about the traced runner -/

theorem runStmtsTrace_error :
    ∀ (l : List Stmt) (db : DBState) (s : Stmt) (m : String),
      (runStmtsTrace l db).2 = .error (s, m) →
      ∃ k, ∃ hk : k < l.length,
        l.get ⟨k, hk⟩ = s ∧ (runStmtsTrace l db).1 = l.take (k + 1) := by
  intro l
  induction l with
  | nil =>
      intro db s m h
      exact absurd h (by simp [runStmtsTrace])
  | cons a l ih =>
      intro db s m h
      cases ha : applyStmt a db with
      | ok d =>
          have h2 : (runStmtsTrace l d).2 = .error (s, m) := by
            simpa [runStmtsTrace, ha] using h
          obtain ⟨k, hk, hg, ht⟩ := ih d s m h2
          refine ⟨k + 1, Nat.succ_lt_succ hk, ?_, ?_⟩
          · simpa using hg
          · simp only [runStmtsTrace, ha, List.take_succ_cons, List.cons.injEq,
              true_and]
            exact ht
      | error me =>
          have h2 : Except.error (α := DBState) ((a, me) : Stmt × String) =
              .error (s, m) := by
            simpa [runStmtsTrace, ha] using h
          have h3 : a = s ∧ me = m := by
            have := Except.error.inj h2
            exact ⟨congrArg Prod.fst this, congrArg Prod.snd this⟩
          refine ⟨0, Nat.succ_pos _, h3.1, ?_⟩
          simp [runStmtsTrace, ha]

theorem initDbRun_fields (db : DBState) :
    (initDbRun db).executed = (runStmtsTrace buildStmts db).1 ∧
    (initDbRun db).outcome = (runStmtsTrace buildStmts db).2 ∧
    (initDbRun db).cursorClosed = true ∧
    (initDbRun db).connectionClosed = true := by
  unfold initDbRun
  cases hr : runStmtsTrace buildStmts db with
  | mk tr r => cases r <;> simp

theorem get_not_mem_take {α : Type} (l : List α) (hnd : l.Nodup) (k j : Nat)
    (hj : j < l.length) (hkj : k + 1 ≤ j) :
    l.get ⟨j, hj⟩ ∉ l.take (k + 1) := by
  intro hmem
  obtain ⟨i, hi⟩ := List.mem_iff_get.mp hmem
  have hlt : (i : Nat) < k + 1 := by
    have h1 : (i : Nat) < (l.take (k + 1)).length := i.isLt
    have h2 : (l.take (k + 1)).length = min (k + 1) l.length :=
      List.length_take _ _
    omega
  have hilen : (i : Nat) < l.length := by omega
  have hgt : (l.take (k + 1)).get i = l.get ⟨i, hilen⟩ := by
    show (l.take (k + 1))[(i : Nat)] = l[(i : Nat)]
    exact List.getElem_take l
  have hinj := List.nodup_iff_injective_get.mp hnd
  have : (⟨(i : Nat), hilen⟩ : Fin l.length) = ⟨j, hj⟩ := by
    apply hinj
    rw [← hgt]
    exact hi
  have hij : (i : Nat) = j := congrArg Fin.val this
  omega

/-! ## Claim theorems -/

/-- C1: in the schema produced by initialization, for every
(requirement_id, version) pair at most one row exists in the
`requirements` table — an insert that succeeds preserves pairwise
distinctness of the pair, and inserting a second row with a duplicate
pair fails; the same holds for (testcase_id, version) pairs in the
`testcases` table. -/
theorem C1_versioned_pair_unique :
    (∀ (tenantIds : List String) (labelIds : List Nat)
        (tbl : List RequirementRow) (r x : RequirementRow),
        x ∈ tbl → x.requirement_id = r.requirement_id → x.version = r.version →
        insertRequirementRow tenantIds labelIds tbl r = none) ∧
    (∀ (tenantIds : List String) (labelIds : List Nat)
        (tbl tbl' : List RequirementRow) (r : RequirementRow),
        ReqPairUnique tbl →
        insertRequirementRow tenantIds labelIds tbl r = some tbl' →
        ReqPairUnique tbl') ∧
    (∀ (tbl : List TestcaseRow) (r x : TestcaseRow),
        x ∈ tbl → x.testcase_id = r.testcase_id → x.version = r.version →
        insertTestcaseRow tbl r = none) ∧
    (∀ (tbl tbl' : List TestcaseRow) (r : TestcaseRow),
        TcPairUnique tbl → insertTestcaseRow tbl r = some tbl' →
        TcPairUnique tbl') := by
  refine ⟨?_, ?_, ?_, ?_⟩
  · intro tis lis tbl r x hx hid hv
    have hB : (tbl.any fun y => y.requirement_id == r.requirement_id &&
        y.version == r.version) = true :=
      List.any_eq_true.mpr ⟨x, hx, by rw [hid, hv]; simp⟩
    simp [insertRequirementRow, hB]
  · intro tis lis tbl tbl' r hu hins
    unfold insertRequirementRow at hins
    by_cases h1 : (tbl.any fun x => x.row_id == r.row_id) = true
    · rw [if_pos h1] at hins
      exact absurd hins (by simp)
    rw [if_neg h1] at hins
    by_cases h2 : (tbl.any fun x => x.requirement_id == r.requirement_id &&
        x.version == r.version) = true
    · rw [if_pos h2] at hins
      exact absurd hins (by simp)
    rw [if_neg h2] at hins
    split at hins
    · exact absurd hins (by simp)
    split at hins
    · exact absurd hins (by simp)
    split at hins
    · exact absurd hins (by simp)
    have htbl : tbl' = tbl ++ [r] := (Option.some.inj hins).symm
    subst htbl
    unfold ReqPairUnique at hu ⊢
    rw [List.pairwise_append]
    refine ⟨hu, List.pairwise_singleton _ _, ?_⟩
    intro a ha b hb
    have hb' : b = r := by simpa using hb
    rintro ⟨hca, hcb⟩
    rw [hb'] at hca hcb
    have hbool : (a.requirement_id == r.requirement_id && a.version == r.version) =
        true := by
      rw [hca, hcb]
      simp
    exact absurd hbool (List.any_eq_false.mp (Bool.eq_false_iff.mpr h2) a ha)
  · intro tbl r x hx hid hv
    have hB : (tbl.any fun y => y.testcase_id == r.testcase_id &&
        y.version == r.version) = true :=
      List.any_eq_true.mpr ⟨x, hx, by rw [hid, hv]; simp⟩
    simp [insertTestcaseRow, hB]
  · intro tbl tbl' r hu hins
    unfold insertTestcaseRow at hins
    by_cases h1 : (tbl.any fun x => x.row_id == r.row_id) = true
    · rw [if_pos h1] at hins
      exact absurd hins (by simp)
    rw [if_neg h1] at hins
    by_cases h2 : (tbl.any fun x => x.testcase_id == r.testcase_id &&
        x.version == r.version) = true
    · rw [if_pos h2] at hins
      exact absurd hins (by simp)
    rw [if_neg h2] at hins
    split at hins
    · exact absurd hins (by simp)
    split at hins
    · exact absurd hins (by simp)
    have htbl : tbl' = tbl ++ [r] := (Option.some.inj hins).symm
    subst htbl
    unfold TcPairUnique at hu ⊢
    rw [List.pairwise_append]
    refine ⟨hu, List.pairwise_singleton _ _, ?_⟩
    intro a ha b hb
    have hb' : b = r := by simpa using hb
    rintro ⟨hca, hcb⟩
    rw [hb'] at hca hcb
    have hbool : (a.testcase_id == r.testcase_id && a.version == r.version) =
        true := by
      rw [hca, hcb]
      simp
    exact absurd hbool (List.any_eq_false.mp (Bool.eq_false_iff.mpr h2) a ha)

/-- Witness for C1 at concrete rows: a duplicate (requirement_id, 1)
pair and a duplicate (testcase_id, 1) pair are rejected, and a
successful insert with a fresh pair keeps the table pair-unique. -/
theorem C1_versioned_pair_unique_witness :
    insertRequirementRow ["t1"] [1]
      [⟨"r1", 1, "t1", 1, "Title", 1, none, "d", none, none, none, none⟩]
      ⟨"r1", 2, "t1", 1, "Other", 1, none, "d", none, none, none, none⟩ = none ∧
    insertTestcaseRow
      [⟨"c1", 1, "r1", "T", "s", "e", "ACTIVE", none, 1, none, none, none, none, none⟩]
      ⟨"c1", 2, "r1", "U", "s", "e", "ACTIVE", none, 1, none, none, none, none, none⟩ =
      none ∧
    ReqPairUnique
      [⟨"r1", 1, "t1", 1, "Title", 1, none, "d", none, none, none, none⟩,
       ⟨"r1", 2, "t1", 1, "Other", 2, none, "d", none, none, none, none⟩] :=
  ⟨C1_versioned_pair_unique.1 ["t1"] [1] _ _
      ⟨"r1", 1, "t1", 1, "Title", 1, none, "d", none, none, none, none⟩
      (by simp) rfl rfl,
   C1_versioned_pair_unique.2.2.1 _ _
      ⟨"c1", 1, "r1", "T", "s", "e", "ACTIVE", none, 1, none, none, none, none, none⟩
      (by simp) rfl rfl,
   C1_versioned_pair_unique.2.1 ["t1"] [1]
      [⟨"r1", 1, "t1", 1, "Title", 1, none, "d", none, none, none, none⟩] _
      ⟨"r1", 2, "t1", 1, "Other", 2, none, "d", none, none, none, none⟩
      (by decide) (by decide)⟩

/-- C10: together with the declared constraints, the unique index
`ux_tsm_testcase_section` makes (testcase_id, section_id) unique across
all versions — a second link of the same testcase and section at any
other `linked_at_version` is rejected — and it is strictly stronger
than the declared `UNIQUE(testcase_id, section_id, linked_at_version)`:
pair-uniqueness implies triple-uniqueness, while a concrete two-row
table satisfies the triple constraint and violates the pair index. -/
theorem C10_pair_index_strictly_stronger :
    (∀ (sectionIds : List String) (testcaseVersions : List (String × Int))
        (tbl : List TsmRow) (r x : TsmRow),
        x ∈ tbl → x.testcase_id = r.testcase_id → x.section_id = r.section_id →
        insertTsmRow sectionIds testcaseVersions tbl r = none) ∧
    (∀ tbl : List TsmRow, TsmPairUnique tbl → TsmTripleUnique tbl) ∧
    (TsmTripleUnique [⟨1, "c1", "s1", 1, none⟩, ⟨2, "c1", "s1", 2, none⟩] ∧
      ¬ TsmPairUnique [⟨1, "c1", "s1", 1, none⟩, ⟨2, "c1", "s1", 2, none⟩]) ∧
    buildUniqueIndexes.contains
      ⟨"ux_tsm_testcase_section", "testcase_section_map",
        ["testcase_id", "section_id"], true, none⟩ = true := by
  refine ⟨?_, ?_, by decide, by decide⟩
  · intro sids tcs tbl r x hx htc hsec
    have hC : (tbl.any fun y => y.testcase_id == r.testcase_id &&
        y.section_id == r.section_id) = true :=
      List.any_eq_true.mpr ⟨x, hx, by rw [htc, hsec]; simp⟩
    simp [insertTsmRow, hC]
  · intro tbl h
    exact h.imp (fun hab hc => hab ⟨hc.1, hc.2.1⟩)

/-- Witness for C10: the pair index rejects re-linking testcase c1 to
section s1 at a different version even though the triple constraint
alone would allow it. -/
theorem C10_pair_index_strictly_stronger_witness :
    insertTsmRow ["s1"] [("c1", 2)]
      [⟨1, "c1", "s1", 1, none⟩] ⟨2, "c1", "s1", 2, none⟩ = none :=
  C10_pair_index_strictly_stronger.1 ["s1"] [("c1", 2)] _ _
    ⟨1, "c1", "s1", 1, none⟩ (by simp) rfl rfl

/-- C6: a `tcm_credentials` row whose api_key is null or empty while
username or password is also null or empty violates
`check_auth_method` and is rejected; a row with only a populated
api_key (username and password absent) passes every constraint and is
accepted. -/
theorem C6_check_auth_method :
    (∀ (integrationIds : List String) (tbl : List TcmCredentialRow)
        (r : TcmCredentialRow),
        (r.api_key = none ∨ r.api_key = some "") →
        ((r.username = none ∨ r.username = some "") ∨
          (r.password = none ∨ r.password = some "")) →
        insertTcmCredentialRow integrationIds tbl r = none) ∧
    (∀ (integrationIds : List String) (tbl : List TcmCredentialRow)
        (r : TcmCredentialRow) (k : String),
        r.api_key = some k → k ≠ "" → r.username = none → r.password = none →
        (tbl.any fun x => x.credential_id == r.credential_id) = false →
        integrationIds.contains r.integration_id = true →
        insertTcmCredentialRow integrationIds tbl r = some (tbl ++ [r])) := by
  constructor
  · intro ids tbl r ha hb
    have hchk : check_auth_method r = false := by
      unfold check_auth_method
      have h1 : populated r.api_key = false := by
        rcases ha with h | h <;> simp [populated, h]
      have h2 : (populated r.username && populated r.password) = false := by
        rcases hb with (h | h) | (h | h) <;> simp [populated, h]
      rw [h1, h2]
      rfl
    simp [insertTcmCredentialRow, hchk]
  · intro ids tbl r k hk hke hu hp hpk hfk
    have hchk : check_auth_method r = true := by
      unfold check_auth_method
      have h1 : populated r.api_key = true := by
        rw [hk]
        simpa [populated] using hke
      rw [h1]
      rfl
    unfold insertTcmCredentialRow
    rw [if_neg (by rw [hpk]; exact Bool.false_ne_true), if_neg (by rw [hfk]; simp),
      if_neg (by rw [hchk]; simp)]

/-- Witness for C6: a row with no secret at all is rejected; a row with
only an api_key is accepted. -/
theorem C6_check_auth_method_witness :
    insertTcmCredentialRow ["i1"] []
      ⟨"c1", "i1", "http://a", none, none, none, none, none⟩ = none ∧
    insertTcmCredentialRow ["i1"] []
      ⟨"c2", "i1", "http://a", some "KEY", none, none, none, none⟩ =
      some [⟨"c2", "i1", "http://a", some "KEY", none, none, none, none⟩] :=
  ⟨C6_check_auth_method.1 ["i1"] [] _ (Or.inl rfl) (Or.inl (Or.inl rfl)),
   C6_check_auth_method.2 ["i1"] [] _ "KEY" rfl (by decide) rfl rfl (by decide)
     (by decide)⟩

/-- C9 counterexample: the schema accepts a second `tcm_credentials`
row with the same integration_id as an existing row — every declared
constraint of the table passes — so it does not reject duplicate
integrations as the claim states. -/
theorem C9_counterexample :
    insertTcmCredentialRow ["i1"]
      [⟨"c1", "i1", "http://a", some "k1", none, none, none, none⟩]
      ⟨"c2", "i1", "http://a", some "k2", none, none, none, none⟩ =
      some [⟨"c1", "i1", "http://a", some "k1", none, none, none, none⟩,
            ⟨"c2", "i1", "http://a", some "k2", none, none, none, none⟩] ∧
    (⟨"c2", "i1", "http://a", some "k2", none, none, none, none⟩ :
      TcmCredentialRow).integration_id =
      (⟨"c1", "i1", "http://a", some "k1", none, none, none, none⟩ :
        TcmCredentialRow).integration_id := by decide

/-- C9 (amended): the schema does not enforce one credential record
per integration: `tcm_credentials` declares no unique constraint on
integration_id, the build creates no unique index on the table, and a
second row with the same integration_id as an existing row is accepted
whenever the declared constraints (fresh primary key, resolvable
foreign key, `check_auth_method`) hold. -/
theorem C9_integration_not_unique :
    (∀ (integrationIds : List String) (tbl : List TcmCredentialRow)
        (r r' : TcmCredentialRow),
        r ∈ tbl → r'.integration_id = r.integration_id →
        (tbl.any fun x => x.credential_id == r'.credential_id) = false →
        check_auth_method r' = true →
        integrationIds.contains r'.integration_id = true →
        insertTcmCredentialRow integrationIds tbl r' = some (tbl ++ [r'])) ∧
    tcmCredentialsDef.uniques = [] ∧
    (fixedIndexList.filter (fun i => i.table == "tcm_credentials" && i.unique)) =
      [] := by
  refine ⟨?_, by decide, by decide⟩
  intro ids tbl r r' _ _ hpk hchk hfk
  unfold insertTcmCredentialRow
  rw [if_neg (by rw [hpk]; exact Bool.false_ne_true), if_neg (by rw [hfk]; simp),
    if_neg (by rw [hchk]; simp)]

/-- Witness for C9 (amended) at concrete rows sharing an
integration_id. -/
theorem C9_integration_not_unique_witness :
    insertTcmCredentialRow ["i1"]
      [⟨"c1", "i1", "http://a", some "k1", none, none, none, none⟩]
      ⟨"c3", "i1", "http://a", some "k3", none, none, none, none⟩ =
      some [⟨"c1", "i1", "http://a", some "k1", none, none, none, none⟩,
            ⟨"c3", "i1", "http://a", some "k3", none, none, none, none⟩] :=
  C9_integration_not_unique.1 ["i1"] _
    ⟨"c1", "i1", "http://a", some "k1", none, none, none, none⟩ _
    (by simp) rfl (by decide) (by decide) (by decide)

/-- C8 counterexample: the partial unique index the build creates on
`tenants` is `ux_tenants_primary_domain` on the single column
primary_domain, not on the pair (tenant, primary_domain): two tenants
with different tenant_id but the same non-null domain are rejected by
the actual index, while the spec-described pair index would accept
them. -/
theorem C8_counterexample :
    (buildUniqueIndexes.filter (fun i => i.table == "tenants")) =
      [⟨"ux_tenants_primary_domain", "tenants", ["primary_domain"], true,
        some "primary_domain"⟩] ∧
    insertTenantRow
      [⟨"t1", "A", "ORGANIZATION", "ACTIVE", some "x.com", none, none⟩]
      ⟨"t2", "B", "ORGANIZATION", "ACTIVE", some "x.com", none, none⟩ = none ∧
    specClaimedTenantInsert
      [⟨"t1", "A", "ORGANIZATION", "ACTIVE", some "x.com", none, none⟩]
      ⟨"t2", "B", "ORGANIZATION", "ACTIVE", some "x.com", none, none⟩ =
      some [⟨"t1", "A", "ORGANIZATION", "ACTIVE", some "x.com", none, none⟩,
            ⟨"t2", "B", "ORGANIZATION", "ACTIVE", some "x.com", none, none⟩] := by
  decide

/-- C8 (amended): the build creates the partial unique index
`ux_tenants_primary_domain` enforcing uniqueness of primary_domain
alone on tenants, restricted to rows with a non-null domain, and the
partial unique index `ux_users_provider_subject` enforcing uniqueness
of (auth_provider, external_subject) on users restricted to rows with
a non-null external_subject. -/
theorem C8_partial_unique_indexes :
    (buildUniqueIndexes.contains
      ⟨"ux_tenants_primary_domain", "tenants", ["primary_domain"], true,
        some "primary_domain"⟩ = true ∧
     buildUniqueIndexes.contains
      ⟨"ux_users_provider_subject", "users", ["auth_provider", "external_subject"],
        true, some "external_subject"⟩ = true) ∧
    (∀ (tbl : List TenantRow) (r x : TenantRow) (d : String),
        x ∈ tbl → x.primary_domain = some d → r.primary_domain = some d →
        insertTenantRow tbl r = none) ∧
    (∀ (tbl : List TenantRow) (r : TenantRow),
        r.primary_domain = none →
        (tbl.any fun x => x.tenant_id == r.tenant_id) = false →
        tenantChecksOk r = true →
        insertTenantRow tbl r = some (tbl ++ [r])) ∧
    (∀ (tenantIds : List String) (tbl : List UserRow) (r x : UserRow) (s : String),
        x ∈ tbl → x.auth_provider = r.auth_provider →
        x.external_subject = some s → r.external_subject = some s →
        insertUserRow tenantIds tbl r = none) := by
  refine ⟨by decide, ?_, ?_, ?_⟩
  · intro tbl r x d hx hxd hrd
    have hidx : (match r.primary_domain with
        | none => false
        | some dd => tbl.any (fun y => y.primary_domain == some dd)) = true := by
      rw [hrd]
      exact List.any_eq_true.mpr ⟨x, hx, by rw [hxd]; simp⟩
    simp [insertTenantRow, hidx]
  · intro tbl r hd hpk hchk
    unfold insertTenantRow
    rw [if_neg (by rw [hpk]; exact Bool.false_ne_true),
      if_neg (by rw [hchk]; simp),
      if_neg (by rw [hd]; exact Bool.false_ne_true)]
  · intro ids tbl r x s hx hxp hxs hrs
    have hidx : (match r.external_subject with
        | none => false
        | some ss => tbl.any (fun y => y.auth_provider == r.auth_provider &&
            y.external_subject == some ss)) = true := by
      rw [hrs]
      exact List.any_eq_true.mpr ⟨x, hx, by rw [hxp, hxs]; simp⟩
    simp [insertUserRow, hidx]

/-- Witness for C8 (amended): the domain index fires across different
tenant ids, a domain-less tenant is accepted, and the users pair index
rejects a duplicate (provider, subject). -/
theorem C8_partial_unique_indexes_witness :
    insertTenantRow
      [⟨"t1", "A", "ORGANIZATION", "ACTIVE", some "y.com", none, none⟩]
      ⟨"t9", "B", "PERSONAL", "ACTIVE", some "y.com", none, none⟩ = none ∧
    insertTenantRow []
      ⟨"t3", "C", "PERSONAL", "ACTIVE", none, none, none⟩ =
      some [⟨"t3", "C", "PERSONAL", "ACTIVE", none, none, none⟩] ∧
    insertUserRow ["t1"]
      [⟨"u1", "t1", "a@example.com", none, "GOOGLE", some "sub-1", "ACTIVE",
        none, none⟩]
      ⟨"u2", "t1", "b@example.com", none, "GOOGLE", some "sub-1", "ACTIVE",
        none, none⟩ = none :=
  ⟨C8_partial_unique_indexes.2.1 _ _
      ⟨"t1", "A", "ORGANIZATION", "ACTIVE", some "y.com", none, none⟩ "y.com"
      (by simp) rfl rfl,
   C8_partial_unique_indexes.2.2.1 [] _ rfl (by decide) (by decide),
   C8_partial_unique_indexes.2.2.2 ["t1"] _ _
      ⟨"u1", "t1", "a@example.com", none, "GOOGLE", some "sub-1", "ACTIVE",
        none, none⟩ "sub-1" (by simp) rfl rfl rfl⟩

/-- C4: deleting a `tcm_testcase_mappings` row with tool T fires
`trg_cascade_tcm_mapping_delete`, which removes exactly the
`testcase_section_map` rows whose testcase_id equals the deleted
mapping's and whose referenced section (unique by primary key) has
source T; links whose section has any other source, in particular
`internal`, stay.  The sections table itself is untouched. -/
theorem C4_cascade_cleanup_trigger (db : TriggerDb) (mid : Nat)
    (old : TcmMappingRow)
    (hfind : db.tcm_testcase_mappings.find? (fun x => x.mapping_id == mid) =
      some old)
    (hpk : List.Pairwise (fun a b => a.section_id ≠ b.section_id) db.sections) :
    (deleteTcmMapping db mid).sections = db.sections ∧
    (deleteTcmMapping db mid).tcm_testcase_mappings =
      db.tcm_testcase_mappings.filter (fun x => !(x.mapping_id == mid)) ∧
    ∀ (m : TsmRow) (s : SectionRow),
      m ∈ db.testcase_section_map → s ∈ db.sections →
      s.section_id = m.section_id →
      (m ∈ (deleteTcmMapping db mid).testcase_section_map ↔
        ¬(m.testcase_id = old.testcase_id ∧ s.source = some old.tcm_tool)) := by
  unfold deleteTcmMapping
  rw [hfind]
  refine ⟨rfl, rfl, ?_⟩
  intro m s hm hs hsid
  show m ∈ db.testcase_section_map.filter (fun mm =>
    !(db.sections.any (fun ss => ss.section_id == mm.section_id &&
      mm.testcase_id == old.testcase_id && ss.source == some old.tcm_tool))) ↔ _
  rw [List.mem_filter]
  constructor
  · rintro ⟨_, hpred⟩ ⟨htc, hsrc⟩
    have hany : (db.sections.any fun ss => ss.section_id == m.section_id &&
        m.testcase_id == old.testcase_id &&
        ss.source == some old.tcm_tool) = false := by
      simpa using hpred
    have hbool : (s.section_id == m.section_id &&
        m.testcase_id == old.testcase_id &&
        s.source == some old.tcm_tool) = true := by
      rw [hsid, htc, hsrc]
      simp
    exact absurd hbool (List.any_eq_false.mp hany s hs)
  · intro hneg
    refine ⟨hm, ?_⟩
    have hany : (db.sections.any fun ss => ss.section_id == m.section_id &&
        m.testcase_id == old.testcase_id &&
        ss.source == some old.tcm_tool) = false := by
      rw [List.any_eq_false]
      intro s' hs' hbool
      have hparts := hbool
      rw [Bool.and_eq_true, Bool.and_eq_true] at hparts
      obtain ⟨⟨hb1, hb2⟩, hb3⟩ := hparts
      have hsid' : s'.section_id = m.section_id := by simpa using hb1
      have hs'eq : s' = s := by
        by_contra hne
        have hsym : Symmetric (fun a b : SectionRow => a.section_id ≠ b.section_id) :=
          fun a b hab => Ne.symm hab
        exact (hpk.forall hsym hs' hs hne) (hsid'.trans hsid.symm)
      exact hneg ⟨by simpa using hb2, by rw [← hs'eq]; simpa using hb3⟩
    rw [hany]
    rfl

/-- Witness for C4: with a testrail-tagged and an internal-tagged
section both linked to testcase tc1, deleting the testrail mapping
keeps the internal link. -/
theorem C4_cascade_cleanup_trigger_witness :
    (deleteTcmMapping
      ⟨[⟨"sec-tr", "t1", "TR", some "testrail", none, none, none, none⟩,
        ⟨"sec-int", "t1", "INT", some "internal", none, none, none, none⟩],
       [⟨1, "tc1", "testrail", "EXT-1", none, none⟩],
       [⟨1, "tc1", "sec-tr", 1, none⟩, ⟨2, "tc1", "sec-int", 1, none⟩]⟩ 1).sections =
      [⟨"sec-tr", "t1", "TR", some "testrail", none, none, none, none⟩,
       ⟨"sec-int", "t1", "INT", some "internal", none, none, none, none⟩] ∧
    (⟨2, "tc1", "sec-int", 1, none⟩ : TsmRow) ∈
      (deleteTcmMapping
        ⟨[⟨"sec-tr", "t1", "TR", some "testrail", none, none, none, none⟩,
          ⟨"sec-int", "t1", "INT", some "internal", none, none, none, none⟩],
         [⟨1, "tc1", "testrail", "EXT-1", none, none⟩],
         [⟨1, "tc1", "sec-tr", 1, none⟩, ⟨2, "tc1", "sec-int", 1, none⟩]⟩
        1).testcase_section_map :=
  ⟨(C4_cascade_cleanup_trigger _ 1 ⟨1, "tc1", "testrail", "EXT-1", none, none⟩
      (by decide) (by decide)).1,
   ((C4_cascade_cleanup_trigger _ 1 ⟨1, "tc1", "testrail", "EXT-1", none, none⟩
      (by decide) (by decide)).2.2 ⟨2, "tc1", "sec-int", 1, none⟩
      ⟨"sec-int", "t1", "INT", some "internal", none, none, none, none⟩
      (by simp) (by simp) rfl).mpr (by decide)⟩

/-- C2: in every run of `initialize_database`, when a statement of the
build sequence fails, the statements attempted are exactly the
sequence up to and including the failing one (no later statement is
executed), the outcome re-raised to the caller carries the offending
statement together with the error text, and the `finally` block closes
the cursor and the connection on every exit path, success or
failure. -/
theorem C2_fail_fast_and_cleanup (db : DBState) :
    (initDbRun db).cursorClosed = true ∧
    (initDbRun db).connectionClosed = true ∧
    ∀ (s : Stmt) (msg : String),
      (initDbRun db).outcome = .error (s, msg) →
      ∃ k, ∃ hk : k < buildStmts.length,
        buildStmts.get ⟨k, hk⟩ = s ∧
        (initDbRun db).executed = buildStmts.take (k + 1) ∧
        ∀ j (hj : j < buildStmts.length), k < j →
          buildStmts.get ⟨j, hj⟩ ∉ (initDbRun db).executed := by
  obtain ⟨he, ho, hc, hn⟩ := initDbRun_fields db
  refine ⟨hc, hn, ?_⟩
  intro s msg hfail
  rw [ho] at hfail
  obtain ⟨k, hk, hg, ht⟩ := runStmtsTrace_error buildStmts db s msg hfail
  refine ⟨k, hk, hg, ?_, ?_⟩
  · rw [he, ht]
  · intro j hj hkj
    rw [he, ht]
    exact get_not_mem_take buildStmts (by decide) k j hj hkj

/-- Witness for C2 at a database whose surviving index name collides
with the first index the build creates: the run fails exactly at that
`CREATE INDEX` statement, the error carries the statement and the
database's message, the executed statements are the prefix up to it,
and both resources are released. -/
theorem C2_fail_fast_and_cleanup_witness :
    (initDbRun collidingDb).outcome = Except.error
      (Stmt.createIndexStmt
        (mkIdx "idx_requirement_labels_tenant_id" "requirement_labels"
          ["tenant_id"]),
       "index already exists: idx_requirement_labels_tenant_id") ∧
    (initDbRun collidingDb).cursorClosed = true ∧
    (initDbRun collidingDb).connectionClosed = true ∧
    ∃ k, ∃ hk : k < buildStmts.length,
      buildStmts.get ⟨k, hk⟩ = Stmt.createIndexStmt
        (mkIdx "idx_requirement_labels_tenant_id" "requirement_labels"
          ["tenant_id"]) ∧
      (initDbRun collidingDb).executed = buildStmts.take (k + 1) ∧
      ∀ j (hj : j < buildStmts.length), k < j →
        buildStmts.get ⟨j, hj⟩ ∉ (initDbRun collidingDb).executed := by
  have herr : (initDbRun collidingDb).outcome = Except.error
      (Stmt.createIndexStmt
        (mkIdx "idx_requirement_labels_tenant_id" "requirement_labels"
          ["tenant_id"]),
       "index already exists: idx_requirement_labels_tenant_id") := by decide
  exact ⟨herr, (C2_fail_fast_and_cleanup collidingDb).1,
    (C2_fail_fast_and_cleanup collidingDb).2.1,
    (C2_fail_fast_and_cleanup collidingDb).2.2 _ _ herr⟩

/-- C3: running the full build sequence twice in succession is
idempotent: for every starting database state, if the first run
succeeds and the second run (from the first run's result) succeeds,
the second result — its tables with their columns, constraints and
rows, its indexes, views, triggers and functions — is identical to the
first. -/
theorem C3_rebuild_idempotent (db d1 d2 : DBState)
    (h1 : runStmts buildStmts db = .ok d1)
    (h2 : runStmts buildStmts d1 = .ok d2) : d2 = d1 := by
  have hidem := runInit_idem db d1 h1
  rw [hidem] at h2
  exact (Except.ok.inj h2).symm

/-- Witness for C3 from the empty database: both runs succeed and the
second reproduces the first's state. -/
theorem C3_rebuild_idempotent_witness :
    ∃ d1 d2, runStmts buildStmts emptyDb = .ok d1 ∧
      runStmts buildStmts d1 = .ok d2 ∧ d2 = d1 := by
  have h1 : runStmts buildStmts emptyDb = .ok (normalizeDb emptyDb) :=
    runInit_ok emptyDb (by decide)
  have h2 : runStmts buildStmts (normalizeDb emptyDb) =
      .ok (normalizeDb (normalizeDb emptyDb)) :=
    runInit_ok (normalizeDb emptyDb) (by decide)
  exact ⟨_, _, h1, h2, C3_rebuild_idempotent emptyDb _ _ h1 h2⟩

/-- C5: after any successful run of the build sequence the tenants
table holds exactly the default tenant row (nil UUID) and the plans
table exactly the three rows named Free, Pro and Unlimited; and each
seeding statement does nothing when every tenants/plans table entry
already holds a row with the conflicting tenant_id / plan name. -/
theorem C5_default_seed_rows :
    (∀ (db d : DBState), runStmts buildStmts db = .ok d →
      tableRows d "tenants" = some [defaultTenantRow] ∧
      tableRows d "plans" = some [planRowFree, planRowPro, planRowUnlimited]) ∧
    (∀ db : DBState, tableExists db "tenants" = true →
      (∀ e ∈ db.tables, e.1.name = "tenants" →
        (e.2.any fun ex => conflictsWith ["tenant_id"] ex defaultTenantRow) = true) →
      applyStmt tenantSeedStmt db = .ok db) ∧
    (∀ db : DBState, tableExists db "plans" = true →
      (∀ e ∈ db.tables, e.1.name = "plans" →
        ∀ r ∈ [planRowFree, planRowPro, planRowUnlimited],
          (e.2.any fun ex => conflictsWith ["name"] ex r) = true) →
      applyStmt planSeedStmt db = .ok db) := by
  refine ⟨?_, ?_, ?_⟩
  · intro db d h
    obtain ⟨_, rfl⟩ := runInit_shape db d h
    constructor
    · show (((leftoverTables db ++ seededTables).find?
        (fun e => e.1.name == "tenants")).map (fun e => e.2)) = _
      rw [List.find?_append,
        find?_name_none (leftoverTables_no_known db) (by decide), Option.none_or]
      decide
    · show (((leftoverTables db ++ seededTables).find?
        (fun e => e.1.name == "plans")).map (fun e => e.2)) = _
      rw [List.find?_append,
        find?_name_none (leftoverTables_no_known db) (by decide), Option.none_or]
      decide
  · intro db hex hconf
    have hmap : db.tables.map (fun e => if e.1.name == "tenants" then
        (e.1, insertRowsOnConflict ["tenant_id"] e.2 [defaultTenantRow]) else e) =
        db.tables := by
      refine Eq.trans (List.map_congr_left ?_) (List.map_id _)
      intro e he
      by_cases hq : e.1.name = "tenants"
      · have hb : (e.1.name == "tenants") = true := beq_iff_eq.mpr hq
        rw [hb, if_pos rfl]
        have hrows : insertRowsOnConflict ["tenant_id"] e.2 [defaultTenantRow] =
            e.2 := by
          unfold insertRowsOnConflict
          simp only [List.foldl_cons, List.foldl_nil]
          rw [if_pos (hconf e he hq)]
        rw [hrows]
        rfl
      · have hb : (e.1.name == "tenants") = false := beq_false_of_ne hq
        rw [hb, if_neg Bool.false_ne_true]
        rfl
    show (if (!(tableExists db "tenants")) = true then _ else _) = _
    rw [if_neg (by rw [hex]; simp), hmap]
  · intro db hex hconf
    have hmap : db.tables.map (fun e => if e.1.name == "plans" then
        (e.1, insertRowsOnConflict ["name"]
          e.2 [planRowFree, planRowPro, planRowUnlimited]) else e) =
        db.tables := by
      refine Eq.trans (List.map_congr_left ?_) (List.map_id _)
      intro e he
      by_cases hq : e.1.name = "plans"
      · have hb : (e.1.name == "plans") = true := beq_iff_eq.mpr hq
        rw [hb, if_pos rfl]
        have hrows : insertRowsOnConflict ["name"]
            e.2 [planRowFree, planRowPro, planRowUnlimited] = e.2 := by
          unfold insertRowsOnConflict
          simp only [List.foldl_cons, List.foldl_nil]
          rw [if_pos (hconf e he hq planRowFree (by simp))]
          rw [if_pos (hconf e he hq planRowPro (by simp))]
          rw [if_pos (hconf e he hq planRowUnlimited (by simp))]
        rw [hrows]
        rfl
      · have hb : (e.1.name == "plans") = false := beq_false_of_ne hq
        rw [hb, if_neg Bool.false_ne_true]
        rfl
    show (if (!(tableExists db "plans")) = true then _ else _) = _
    rw [if_neg (by rw [hex]; simp), hmap]

/-- Witness for C5: the seed rows after a run from the empty database,
and both seeding statements leaving a pre-seeded table unchanged. -/
theorem C5_default_seed_rows_witness :
    (tableRows (normalizeDb emptyDb) "tenants" = some [defaultTenantRow] ∧
     tableRows (normalizeDb emptyDb) "plans" =
       some [planRowFree, planRowPro, planRowUnlimited]) ∧
    applyStmt tenantSeedStmt ⟨[], [(tenantsDef, [defaultTenantRow])], [], [], [], []⟩ =
      .ok ⟨[], [(tenantsDef, [defaultTenantRow])], [], [], [], []⟩ ∧
    applyStmt planSeedStmt
      ⟨[], [(plansDef, [planRowFree, planRowPro, planRowUnlimited])], [], [], [], []⟩ =
      .ok ⟨[], [(plansDef, [planRowFree, planRowPro, planRowUnlimited])],
        [], [], [], []⟩ :=
  ⟨C5_default_seed_rows.1 emptyDb (normalizeDb emptyDb)
      (runInit_ok emptyDb (by decide)),
   C5_default_seed_rows.2.1 _ (by decide) (by decide),
   C5_default_seed_rows.2.2 _ (by decide) (by decide)⟩

/-- C7 counterexample: the claim that every foreign key references a
table created by a strictly earlier statement fails on the build: the
`testcases` statement declares `derived_from_row_id REFERENCES
testcases(row_id)`, a reference to the table created by that same
statement, so the strictly-earlier walk over the creation sequence
rejects it. -/
theorem C7_counterexample :
    fksEarlierOk createOrder = false ∧
    testcasesDef.fks = [⟨["derived_from_row_id"], "testcases", ["row_id"]⟩] := by
  decide

/-- C7 (amended): in the fixed build sequence every foreign key of
every `CREATE TABLE` statement references a table and column pair
created by an earlier statement of the sequence or by the same
statement (the single self-reference of `testcases`), with each
composite foreign key referencing a matching declared composite unique
constraint on its target; the creation sequence of the build is
exactly `createOrder`, so the tables are created in an order
compatible with their foreign-key dependencies. -/
theorem C7_fk_creation_order :
    fksEarlierOrSelfOk createOrder = true ∧
    (buildStmts.filterMap (fun s => match s with
      | Stmt.createTable t => some t
      | _ => none)) = createOrder := by
  decide

end InitVersioningDb
